import Mathlib

/-! # A shallow embedding of the 6502 interpreter (`cpu.c`, `program.c`)

Conventions of the embedding.

* `uint8_t` and `uint16_t` values are natural numbers; every store into a
  variable of such a type is written with an explicit `u8` / `u16`
  (reduction modulo `2^8` / `2^16`).  Theorems state the typing of the inputs
  (`cpu6502.WF`, `M < 256`, ...) as hypotheses.
* The one-bit bit-fields of `struct Status` are `Bool`s.  A comparison result
  stored into a bit-field is a `decide`; an integer expression stored into a
  bit-field keeps its low bit (`bitfield`).
* The global `memory[0x10000]` is a function from addresses to bytes, and the
  standard output written by `program.c` is a list of events.  Both live in
  `State` next to the register file, so that every C function taking
  `cpu6502 *cpu` becomes a function `State → State` (with the returned value
  in a pair when the C function returns one).
-/

namespace Emu6502

/-! ## Data model (`cpu.c`, lines 1-38) -/

/-- The constant `U8_MAX`. -/
def U8_MAX : Nat := 0xFF

/-- Conversion to `uint8_t`. -/
def u8 (n : Nat) : Nat := n % 256

/-- Conversion to `uint16_t`. -/
def u16 (n : Nat) : Nat := n % 65536

/-- Conversion of an `int` to `uint8_t`. -/
def u8i (i : Int) : Nat := (i % 256).toNat

/-- Conversion of an `int` to `uint16_t`. -/
def u16i (i : Int) : Nat := (i % 65536).toNat

/-- The cast `(int8_t)v` of a byte: the two's-complement reading. -/
def int8_t (v : Nat) : Int :=
  if v % 256 < 128 then ((v % 256 : Nat) : Int) else ((v % 256 : Nat) : Int) - 256

/-- Storing an integer into a one-bit unsigned bit-field keeps its low bit. -/
def bitfield (n : Nat) : Bool := decide (n % 2 = 1)

/-- The operator `~` on a non-negative `int`, as the 32-bit two's-complement
bit pattern of the result. -/
def compl (n : Nat) : Nat := n ^^^ 0xFFFFFFFF

/-- The bit-field record `struct Status`. -/
structure Status where
  C : Bool
  Z : Bool
  I : Bool
  D : Bool
  B : Bool
  U : Bool
  V : Bool
  N : Bool
  deriving DecidableEq

/-- The register file `cpu6502`. -/
structure cpu6502 where
  A : Nat
  X : Nat
  Y : Nat
  SP : Nat
  PC : Nat
  P : Status
  deriving DecidableEq

/-- What `program.c` writes to standard output. -/
inductive OutEvent where
  /-- The call `putchar(c)` of `STA_os`. -/
  | putchar (c : Nat)
  /-- The report `printf("Unknown opcode: %02X at %04X\n", opcode, addr)`. -/
  | unknownOpcode (opcode : Nat) (addr : Int)
  deriving DecidableEq

/-- The whole machine: register file, the global `memory` array and the
output written so far. -/
structure State where
  cpu : cpu6502
  memory : Nat → Nat
  out : List OutEvent

/-- The registers hold values of their C types. -/
def cpu6502.WF (c : cpu6502) : Prop :=
  c.A < 256 ∧ c.X < 256 ∧ c.Y < 256 ∧ c.SP < 256 ∧ c.PC < 65536

instance (c : cpu6502) : Decidable c.WF :=
  inferInstanceAs (Decidable (c.A < 256 ∧ c.X < 256 ∧ c.Y < 256 ∧ c.SP < 256 ∧ c.PC < 65536))

/-- Every memory cell holds a byte. -/
def MemWF (m : Nat → Nat) : Prop := ∀ a, m a < 256

/-- The assignment `memory[addr] = value`. -/
def store (m : Nat → Nat) (addr value : Nat) : Nat → Nat :=
  fun a => if a = addr then value else m a

/-! ## Reset, flag packing and the stack primitives (`cpu.c`, lines 40-87) -/

/-- The loop `for (int i = 0; i < n; i++) memory[i] = 0;` of `reset_cpu_c`:
the memory after its first `n` iterations (iteration `n` writes the cell `n`). -/
def zero_fill : Nat → (Nat → Nat) → (Nat → Nat)
  | 0, m => m
  | n + 1, m => store (zero_fill n m) n 0

/-- The function `reset_cpu_c`. -/
def reset_cpu_c (s : State) : State :=
  { s with
    cpu :=
      { A := 0, X := 0, Y := 0, SP := 0xFF, PC := 0x0000,
        P := { C := false, Z := false, I := false, D := false, B := false,
               U := true, V := false, N := false } },
    memory := zero_fill 0x10000 s.memory }

/-- The function `pack_P`. -/
def pack_P (s : State) : Nat :=
  u8 ((s.cpu.P.N.toNat <<< 7) ||| (s.cpu.P.V.toNat <<< 6) ||| (1 <<< 5) |||
      (s.cpu.P.B.toNat <<< 4) ||| (s.cpu.P.D.toNat <<< 3) |||
      (s.cpu.P.I.toNat <<< 2) ||| (s.cpu.P.Z.toNat <<< 1) ||| s.cpu.P.C.toNat)

/-- The function `unpack_P`. -/
def unpack_P (s : State) (value : Nat) : State :=
  { s with
    cpu :=
      { s.cpu with
        P :=
          { N := bitfield ((value >>> 7) &&& 1),
            V := bitfield ((value >>> 6) &&& 1),
            U := true,
            B := false,
            D := bitfield ((value >>> 3) &&& 1),
            I := bitfield ((value >>> 2) &&& 1),
            Z := bitfield ((value >>> 1) &&& 1),
            C := bitfield ((value >>> 0) &&& 1) } } }

/-- The function `push_c`. -/
def push_c (s : State) (value : Nat) : State :=
  { s with
    memory := store s.memory (0x0100 ||| s.cpu.SP) value,
    cpu := { s.cpu with SP := u8i ((s.cpu.SP : Int) - 1) } }

/-- The function `pull_c`: the state after the call and the returned byte. -/
def pull_c (s : State) : State × Nat :=
  let s1 : State := { s with cpu := { s.cpu with SP := u8 (s.cpu.SP + 1) } }
  (s1, s1.memory (0x0100 ||| s1.cpu.SP))

/-! ## Arithmetic, logic, branches, compares (`cpu.c`, lines 89-211) -/

/-- The function `ADC_c`. -/
def ADC_c (s : State) (M : Nat) : State :=
  let sum := u16 (s.cpu.A + M + (if s.cpu.P.C then 1 else 0))
  let c := decide (sum > U8_MAX)
  let v := decide ((compl (s.cpu.A ^^^ M) &&& (s.cpu.A ^^^ sum) &&& 0x80) ≠ 0)
  let a := u8 sum
  let z := decide (a = 0)
  let n := decide ((a &&& 0x80) ≠ 0)
  { s with cpu := { s.cpu with A := a, P := { s.cpu.P with C := c, V := v, Z := z, N := n } } }

/-- The function `AND_c`. -/
def AND_c (s : State) (M : Nat) : State :=
  let a := u8 (s.cpu.A &&& M)
  { s with
    cpu := { s.cpu with
             A := a,
             P := { s.cpu.P with Z := decide (a = 0), N := decide ((a &&& 0x80) ≠ 0) } } }

/-- The function `BRK_c`. -/
def BRK_c (s : State) : State :=
  let s1 : State := { s with cpu := { s.cpu with PC := u16 (s.cpu.PC + 1) } }
  let s2 := push_c s1 ((s1.cpu.PC >>> 8) &&& 0xFF)
  let s3 := push_c s2 (s2.cpu.PC &&& 0xFF)
  let p := u8 (pack_P s3 ||| 0x10)
  let s4 := push_c s3 p
  let s5 : State := { s4 with cpu := { s4.cpu with P := { s4.cpu.P with I := true } } }
  let lo := s5.memory 0xFFFE
  let hi := s5.memory 0xFFFF
  { s5 with cpu := { s5.cpu with PC := u16 ((u16 hi <<< 8) ||| lo) } }

/-- The statement `cpu->PC += (int8_t)offset`. -/
def branch (s : State) (offset : Nat) : State :=
  { s with cpu := { s.cpu with PC := u16i ((s.cpu.PC : Int) + int8_t offset) } }

/-- The function `BCC_c`. -/
def BCC_c (s : State) (offset : Nat) : State :=
  if !s.cpu.P.C then branch s offset else s

/-- The function `BCS_c`. -/
def BCS_c (s : State) (offset : Nat) : State :=
  if s.cpu.P.C.toNat = 1 then branch s offset else s

/-- The function `BEQ_c`. -/
def BEQ_c (s : State) (offset : Nat) : State :=
  if s.cpu.P.Z.toNat = 1 then branch s offset else s

/-- The function `BIT_c`. -/
def BIT_c (s : State) (M : Nat) : State :=
  let result := u8 (s.cpu.A &&& M)
  { s with
    cpu := { s.cpu with
             P := { s.cpu.P with
                    Z := decide (result = 0),
                    V := decide ((M &&& 0x40) ≠ 0),
                    N := decide ((M &&& 0x80) ≠ 0) } } }

/-- The function `BMI_c`. -/
def BMI_c (s : State) (offset : Nat) : State :=
  if s.cpu.P.N.toNat = 1 then branch s offset else s

/-- The function `BNE_c`. -/
def BNE_c (s : State) (offset : Nat) : State :=
  if !s.cpu.P.Z then branch s offset else s

/-- The function `BPL_c`. -/
def BPL_c (s : State) (offset : Nat) : State :=
  if !s.cpu.P.N then branch s offset else s

/-- The function `CLC_c`. -/
def CLC_c (s : State) : State :=
  { s with cpu := { s.cpu with P := { s.cpu.P with C := false } } }

/-- The function `CLD_c`. -/
def CLD_c (s : State) : State :=
  { s with cpu := { s.cpu with P := { s.cpu.P with D := false } } }

/-- The function `CLI_c`. -/
def CLI_c (s : State) : State :=
  { s with cpu := { s.cpu with P := { s.cpu.P with I := false } } }

/-- The function `CLV_c`. -/
def CLV_c (s : State) : State :=
  { s with cpu := { s.cpu with P := { s.cpu.P with V := false } } }

/-- The function `CMP_c`. -/
def CMP_c (s : State) (M : Nat) : State :=
  let result := u8i ((s.cpu.A : Int) - (M : Int))
  { s with
    cpu := { s.cpu with
             P := { s.cpu.P with
                    C := decide (s.cpu.A ≥ M),
                    Z := decide (s.cpu.A = M),
                    N := decide ((result &&& 0x80) ≠ 0) } } }

/-- The function `CPX_c`. -/
def CPX_c (s : State) (M : Nat) : State :=
  let result := u8i ((s.cpu.X : Int) - (M : Int))
  { s with
    cpu := { s.cpu with
             P := { s.cpu.P with
                    C := decide (s.cpu.X ≥ M),
                    Z := decide (s.cpu.X = M),
                    N := decide ((result &&& 0x80) ≠ 0) } } }

/-- The function `CPY_c`. -/
def CPY_c (s : State) (M : Nat) : State :=
  let result := u8i ((s.cpu.Y : Int) - (M : Int))
  { s with
    cpu := { s.cpu with
             P := { s.cpu.P with
                    C := decide (s.cpu.Y ≥ M),
                    Z := decide (s.cpu.Y = M),
                    N := decide ((result &&& 0x80) ≠ 0) } } }

/-! ## Increments, loads, stores, transfers (`cpu.c`, lines 213-387)

In `(value - 1) & U8_MAX` the subtraction is done on `int`; masking an `int`
with `0xFF` is reduction modulo 256, which `u8i` performs. -/

/-- The function `DEC_c`. -/
def DEC_c (s : State) (addr : Nat) : State :=
  let value := u8i (((s.memory addr : Nat) : Int) - 1)
  { s with
    memory := store s.memory addr value,
    cpu := { s.cpu with
             P := { s.cpu.P with Z := decide (value = 0), N := decide ((value &&& 0x80) ≠ 0) } } }

/-- The function `DEX_c`. -/
def DEX_c (s : State) : State :=
  let value := u8i ((s.cpu.X : Int) - 1)
  { s with
    cpu := { s.cpu with
             X := value,
             P := { s.cpu.P with Z := decide (value = 0), N := decide ((value &&& 0x80) ≠ 0) } } }

/-- The function `DEY_c`. -/
def DEY_c (s : State) : State :=
  let value := u8i ((s.cpu.Y : Int) - 1)
  { s with
    cpu := { s.cpu with
             Y := value,
             P := { s.cpu.P with Z := decide (value = 0), N := decide ((value &&& 0x80) ≠ 0) } } }

/-- The function `EOR_c`. -/
def EOR_c (s : State) (M : Nat) : State :=
  let a := u8 (s.cpu.A ^^^ M)
  { s with
    cpu := { s.cpu with
             A := a,
             P := { s.cpu.P with Z := decide (a = 0), N := decide ((a &&& 0x80) ≠ 0) } } }

/-- The function `INC_c`. -/
def INC_c (s : State) (addr : Nat) : State :=
  let value := u8i (((s.memory addr : Nat) : Int) + 1)
  { s with
    memory := store s.memory addr value,
    cpu := { s.cpu with
             P := { s.cpu.P with Z := decide (value = 0), N := decide ((value &&& 0x80) ≠ 0) } } }

/-- The function `INX_c`. -/
def INX_c (s : State) : State :=
  let value := u8i ((s.cpu.X : Int) + 1)
  { s with
    cpu := { s.cpu with
             X := value,
             P := { s.cpu.P with Z := decide (value = 0), N := decide ((value &&& 0x80) ≠ 0) } } }

/-- The function `INY_c`. -/
def INY_c (s : State) : State :=
  let value := u8i ((s.cpu.Y : Int) + 1)
  { s with
    cpu := { s.cpu with
             Y := value,
             P := { s.cpu.P with Z := decide (value = 0), N := decide ((value &&& 0x80) ≠ 0) } } }

/-- The function `JMP_c`. -/
def JMP_c (s : State) (addr : Nat) : State :=
  { s with cpu := { s.cpu with PC := addr } }

/-- The function `LDA_c`. -/
def LDA_c (s : State) (M : Nat) : State :=
  let r := M
  { s with
    cpu := { s.cpu with
             A := r,
             P := { s.cpu.P with Z := decide (r = 0), N := decide ((r &&& 0x80) ≠ 0) } } }

/-- The function `LDX_c`. -/
def LDX_c (s : State) (M : Nat) : State :=
  let r := M
  { s with
    cpu := { s.cpu with
             X := r,
             P := { s.cpu.P with Z := decide (r = 0), N := decide ((r &&& 0x80) ≠ 0) } } }

/-- The function `LDY_c`. -/
def LDY_c (s : State) (M : Nat) : State :=
  let r := M
  { s with
    cpu := { s.cpu with
             Y := r,
             P := { s.cpu.P with Z := decide (r = 0), N := decide ((r &&& 0x80) ≠ 0) } } }

/-- The function `ORA_c`. -/
def ORA_c (s : State) (M : Nat) : State :=
  let a := u8 (s.cpu.A ||| M)
  { s with
    cpu := { s.cpu with
             A := a,
             P := { s.cpu.P with Z := decide (a = 0), N := decide ((a &&& 0x80) ≠ 0) } } }

/-- The function `PHA_c`. -/
def PHA_c (s : State) : State := push_c s s.cpu.A

/-- The function `PLA_c`: the state after the call and the returned byte. -/
def PLA_c (s : State) : State × Nat := pull_c s

/-- The function `SEC_c`. -/
def SEC_c (s : State) : State :=
  { s with cpu := { s.cpu with P := { s.cpu.P with C := true } } }

/-- The function `SED_c`. -/
def SED_c (s : State) : State :=
  { s with cpu := { s.cpu with P := { s.cpu.P with D := true } } }

/-- The function `SEI_c`. -/
def SEI_c (s : State) : State :=
  { s with cpu := { s.cpu with P := { s.cpu.P with I := true } } }

/-- The function `STA_c`. -/
def STA_c (s : State) (addr : Nat) : State :=
  { s with memory := store s.memory addr s.cpu.A }

/-- The function `STX_c`. -/
def STX_c (s : State) (addr : Nat) : State :=
  { s with memory := store s.memory addr s.cpu.X }

/-- The function `STY_c`. -/
def STY_c (s : State) (addr : Nat) : State :=
  { s with memory := store s.memory addr s.cpu.Y }

/-- The function `TAX_c`. -/
def TAX_c (s : State) : State :=
  let r := s.cpu.A
  { s with
    cpu := { s.cpu with
             X := r,
             P := { s.cpu.P with Z := decide (r = 0), N := decide ((r &&& 0x80) ≠ 0) } } }

/-- The function `TAY_c`. -/
def TAY_c (s : State) : State :=
  let r := s.cpu.A
  { s with
    cpu := { s.cpu with
             Y := r,
             P := { s.cpu.P with Z := decide (r = 0), N := decide ((r &&& 0x80) ≠ 0) } } }

/-- The function `TSX_c`. -/
def TSX_c (s : State) : State :=
  let r := s.cpu.SP
  { s with
    cpu := { s.cpu with
             X := r,
             P := { s.cpu.P with Z := decide (r = 0), N := decide ((r &&& 0x80) ≠ 0) } } }

/-- The function `TXA_c`. -/
def TXA_c (s : State) : State :=
  let r := s.cpu.X
  { s with
    cpu := { s.cpu with
             A := r,
             P := { s.cpu.P with Z := decide (r = 0), N := decide ((r &&& 0x80) ≠ 0) } } }

/-- The function `TXS_c`. -/
def TXS_c (s : State) : State :=
  { s with cpu := { s.cpu with SP := s.cpu.X } }

/-- The function `TYA_c`. -/
def TYA_c (s : State) : State :=
  let r := s.cpu.Y
  { s with
    cpu := { s.cpu with
             A := r,
             P := { s.cpu.P with Z := decide (r = 0), N := decide ((r &&& 0x80) ≠ 0) } } }

/-! ## Subtraction, shifts, rotates (`cpu.c`, lines 403-521) -/

/-- The function `SBC_c`.  The overflow test is evaluated after `cpu->A` has
been assigned, so the `cpu->A` it reads is the new accumulator `a`. -/
def SBC_c (s : State) (M : Nat) : State :=
  let value := u16 (u16 M ^^^ 0x00FF)
  let sum := u16 (s.cpu.A + value + (if s.cpu.P.C then 1 else 0))
  let c := decide ((sum &&& 0x100) ≠ 0)
  let a := u8 sum
  let z := decide (a = 0)
  let v := decide (((sum ^^^ a) &&& (sum ^^^ value) &&& 0x0080) ≠ 0)
  let n := decide ((a &&& 0x80) ≠ 0)
  { s with cpu := { s.cpu with A := a, P := { s.cpu.P with C := c, Z := z, V := v, N := n } } }

/-- The function `ASL_A_c`. -/
def ASL_A_c (s : State) : State :=
  let value := s.cpu.A
  let c := decide ((value &&& 0x80) ≠ 0)
  let value := u8 ((value <<< 1) &&& U8_MAX)
  { s with
    cpu := { s.cpu with
             A := value,
             P := { s.cpu.P with
                    C := c, Z := decide (value = 0), N := decide ((value &&& 0x80) ≠ 0) } } }

/-- The function `ASL_M_c`. -/
def ASL_M_c (s : State) (addr : Nat) : State :=
  let value := s.memory addr
  let c := decide ((value &&& 0x80) ≠ 0)
  let value := u8 ((value <<< 1) &&& U8_MAX)
  { s with
    memory := store s.memory addr value,
    cpu := { s.cpu with
             P := { s.cpu.P with
                    C := c, Z := decide (value = 0), N := decide ((value &&& 0x80) ≠ 0) } } }

/-- The function `LSR_A_c`. -/
def LSR_A_c (s : State) : State :=
  let value := s.cpu.A
  let c := decide ((value &&& 0x01) ≠ 0)
  let value := u8 ((value >>> 1) &&& U8_MAX)
  { s with
    cpu := { s.cpu with
             A := value,
             P := { s.cpu.P with
                    C := c, Z := decide (value = 0), N := decide ((value &&& 0x80) ≠ 0) } } }

/-- The function `LSR_M_c`. -/
def LSR_M_c (s : State) (addr : Nat) : State :=
  let value := s.memory addr
  let c := decide ((value &&& 0x01) ≠ 0)
  let value := u8 ((value >>> 1) &&& U8_MAX)
  { s with
    memory := store s.memory addr value,
    cpu := { s.cpu with
             P := { s.cpu.P with
                    C := c, Z := decide (value = 0), N := decide ((value &&& 0x80) ≠ 0) } } }

/-- The function `ROL_A_c`. -/
def ROL_A_c (s : State) : State :=
  let value := s.cpu.A
  let c := decide ((value &&& 0x80) ≠ 0)
  let value := u8 ((value <<< 1) &&& U8_MAX)
  { s with
    cpu := { s.cpu with
             A := value,
             P := { s.cpu.P with
                    C := c, Z := decide (value = 0), N := decide ((value &&& 0x80) ≠ 0) } } }

/-- The function `ROL_M_c`. -/
def ROL_M_c (s : State) (addr : Nat) : State :=
  let value := s.memory addr
  let c := decide ((value &&& 0x80) ≠ 0)
  let value := u8 ((value <<< 1) &&& U8_MAX)
  { s with
    memory := store s.memory addr value,
    cpu := { s.cpu with
             P := { s.cpu.P with
                    C := c, Z := decide (value = 0), N := decide ((value &&& 0x80) ≠ 0) } } }

/-- The function `ROR_A_c`.  The local `oldc` of the source is read
from the carry flag and never used. -/
def ROR_A_c (s : State) : State :=
  let value := s.cpu.A
  let c := decide ((value &&& 0x01) ≠ 0)
  let value := u8 ((value >>> 1) &&& U8_MAX)
  { s with
    cpu := { s.cpu with
             A := value,
             P := { s.cpu.P with
                    C := c, Z := decide (value = 0), N := decide ((value &&& 0x80) ≠ 0) } } }

/-- The function `ROR_M_c`.  The source tests the mask `0x80` here. -/
def ROR_M_c (s : State) (addr : Nat) : State :=
  let value := s.memory addr
  let c := decide ((value &&& 0x80) ≠ 0)
  let value := u8 ((value >>> 1) &&& U8_MAX)
  { s with
    memory := store s.memory addr value,
    cpu := { s.cpu with
             P := { s.cpu.P with
                    C := c, Z := decide (value = 0), N := decide ((value &&& 0x80) ≠ 0) } } }

/-! ## Overflow branches, flag push/pull, calls and returns (`cpu.c`, lines 523-575) -/

/-- The function `BVC_c`. -/
def BVC_c (s : State) (offset : Nat) : State :=
  if !s.cpu.P.V then branch s offset else s

/-- The function `BVS_c`.  Its parameter is declared `int8_t`: the argument
byte is converted at the call, and the cast in the body is the identity. -/
def BVS_c (s : State) (offset : Int) : State :=
  if s.cpu.P.V then { s with cpu := { s.cpu with PC := u16i ((s.cpu.PC : Int) + offset) } }
  else s

/-- The function `PHP_c`. -/
def PHP_c (s : State) : State :=
  let p := u8 (pack_P s ||| 0x10)
  push_c s p

/-- The function `PLP_c`. -/
def PLP_c (s : State) : State :=
  let r := pull_c s
  unpack_P r.1 r.2

/-- The function `JSR_c`. -/
def JSR_c (s : State) (addr : Nat) : State :=
  let r_addr := u16i ((s.cpu.PC : Int) - 1)
  let s1 := push_c s ((r_addr >>> 8) &&& 0xFF)
  let s2 := push_c s1 (r_addr &&& 0xFF)
  { s2 with cpu := { s2.cpu with PC := addr } }

/-- The function `RTS_c`. -/
def RTS_c (s : State) : State :=
  let r1 := pull_c s
  let lo := r1.2
  let r2 := pull_c r1.1
  let hi := r2.2
  { r2.1 with cpu := { r2.1.cpu with PC := u16 (((u16 hi <<< 8) ||| lo) + 1) } }

/-- The function `RTI_c`. -/
def RTI_c (s : State) : State :=
  let r0 := pull_c s
  let s1 := unpack_P r0.1 r0.2
  let r1 := pull_c s1
  let lo := r1.2
  let r2 := pull_c r1.1
  let hi := r2.2
  { r2.1 with cpu := { r2.1.cpu with PC := u16 ((u16 hi <<< 8) ||| lo) } }

/-- The function `NOP_c`. -/
def NOP_c (s : State) : State := s

/-! ## The fetch-decode-execute loop (`program.c`) -/

/-- The constant `IO_PUTCHAR`. -/
def IO_PUTCHAR : Nat := 0xFF00

/-- The function `STA_os`, which `program.c` substitutes for `STA`. -/
def STA_os (s : State) (addr : Nat) : State :=
  if addr = IO_PUTCHAR then { s with out := s.out ++ [OutEvent.putchar s.cpu.A] }
  else { s with memory := store s.memory addr s.cpu.A }

/-- The expression `memory[cpu->PC++]`: the state with `PC` advanced and the
byte read. -/
def fetch (s : State) : State × Nat :=
  ({ s with cpu := { s.cpu with PC := u16 (s.cpu.PC + 1) } }, s.memory s.cpu.PC)

/-- The two operand fetches `lo`, `hi` and the address `((uint16_t)hi << 8) | lo`. -/
def fetch_addr (s : State) : State × Nat :=
  let r1 := fetch s
  let lo := r1.2
  let r2 := fetch r1.1
  let hi := r2.2
  (r2.1, u16 ((u16 hi <<< 8) ||| lo))

/-- The function `cpu_step`.  In the branch cases the operand is first cast
to `int8_t` (`offset`) and then converted back to the `uint8_t` parameter of
`BCC_c` / `BNE_c`. -/
def cpu_step (s : State) : State :=
  let f := fetch s
  let s := f.1
  let opcode := f.2
  if opcode = 0xA9 then
    let v := fetch s
    LDA_c v.1 v.2
  else if opcode = 0x8D then
    let a := fetch_addr s
    STA_os a.1 a.2
  else if opcode = 0xA2 then
    let v := fetch s
    LDX_c v.1 v.2
  else if opcode = 0xE8 then
    INX_c s
  else if opcode = 0xE0 then
    let v := fetch s
    CPX_c v.1 v.2
  else if opcode = 0x90 then
    let v := fetch s
    let offset := int8_t v.2
    BCC_c v.1 (u8i offset)
  else if opcode = 0x4C then
    let a := fetch_addr s
    JMP_c a.1 a.2
  else if opcode = 0x8A then
    TXA_c s
  else if opcode = 0x69 then
    let v := fetch s
    ADC_c v.1 v.2
  else if opcode = 0xCA then
    DEX_c s
  else if opcode = 0xD0 then
    let v := fetch s
    let offset := int8_t v.2
    BNE_c v.1 (u8i offset)
  else if opcode = 0x20 then
    let a := fetch_addr s
    JSR_c a.1 a.2
  else if opcode = 0x60 then
    RTS_c s
  else if opcode = 0x00 then
    s
  else
    { s with out := s.out ++ [OutEvent.unknownOpcode opcode ((s.cpu.PC : Int) - 1)] }

/-- The function `run_cpu`, with `fuel` bounding the number of iterations of
its `for (;;)` loop: `none` when the loop has not left within `fuel`
iterations. -/
def run_cpu : Nat → State → Option State
  | 0, _ => none
  | fuel + 1, s =>
    let opcode := s.memory s.cpu.PC
    let s1 := cpu_step s
    if opcode = 0x00 then some s1 else run_cpu fuel s1

/-! ## Call sequences and example states used by the theorems -/

/-- The calls `push_c(cpu, v)` for the bytes `v` of a list, in order. -/
def push_all (s : State) : List Nat → State
  | [] => s
  | v :: vs => push_all (push_c s v) vs

/-- The call `pull_c(cpu)` made `n` times: the final state and the bytes
returned, in the order of the calls. -/
def pull_n : Nat → State → State × List Nat
  | 0, s => (s, [])
  | n + 1, s =>
    let r := pull_c s
    let rest := pull_n n r.1
    (rest.1, r.2 :: rest.2)

/-- The state of the test "Stack push/pull order", with the stack pointer at
`0x00` so that the second push wraps to `0xFF`. -/
def stackExample : State :=
  { cpu := { A := 0, X := 0, Y := 0, SP := 0x00, PC := 0,
             P := { C := false, Z := false, I := false, D := false, B := false,
                    U := true, V := false, N := false } },
    memory := fun _ => 0,
    out := [] }

/-- The state of the test "JSR/RTS" (`PC = 0x3000`), with the stack pointer
at `0x00` so that the pushes wrap. -/
def jsrExample : State :=
  { cpu := { A := 0, X := 0, Y := 0, SP := 0x00, PC := 0x3000,
             P := { C := false, Z := false, I := false, D := false, B := false,
                    U := true, V := false, N := false } },
    memory := fun _ => 0,
    out := [] }

/-- A state for `BRK`: `PC = 0xFFFF` (so that `PC + 1` wraps), `SP = 0x01`
(so that the three pushes wrap), flags `C`, `D`, `N` set, and the vector
`0xFFFE/0xFFFF` holding `0x34`, `0x12`. -/
def brkExample : State :=
  { cpu := { A := 0, X := 0, Y := 0, SP := 0x01, PC := 0xFFFF,
             P := { C := true, Z := false, I := false, D := true, B := false,
                    U := true, V := false, N := true } },
    memory := fun a => if a = 0xFFFE then 0x34 else if a = 0xFFFF then 0x12 else 0,
    out := [] }

/-- The state of the test "PHP/PLP" after `SEC` and `SEI`. -/
def phpExample : State :=
  { cpu := { A := 0, X := 0, Y := 0, SP := 0xFF, PC := 0,
             P := { C := true, Z := false, I := true, D := false, B := false,
                    U := true, V := false, N := false } },
    memory := fun _ => 0,
    out := [] }

/-- The state of the test "Branch backward (negative offset)": `PC = 0x2000`,
`Z = 1`. -/
def branchExample : State :=
  { cpu := { A := 0, X := 0, Y := 0, SP := 0xFF, PC := 0x2000,
             P := { C := false, Z := true, I := false, D := false, B := false,
                    U := true, V := false, N := false } },
    memory := fun _ => 0,
    out := [] }

/-- The state `s` with its program counter replaced. -/
def State.withPC (s : State) (pc : Nat) : State :=
  { s with cpu := { s.cpu with PC := pc } }

/-- The state of the test "ADC overflow behavior": `A = 0x50`, carry clear. -/
def adcExample : State :=
  { cpu := { A := 0x50, X := 0, Y := 0, SP := 0xFF, PC := 0,
             P := { C := false, Z := false, I := false, D := false, B := false,
                    U := true, V := false, N := false } },
    memory := fun _ => 0,
    out := [] }

/-- The state of the test "SBC": `A = 0x10`, carry set. -/
def sbcExample : State :=
  { cpu := { A := 0x10, X := 0, Y := 0, SP := 0xFF, PC := 0,
             P := { C := true, Z := false, I := false, D := false, B := false,
                    U := true, V := false, N := false } },
    memory := fun _ => 0,
    out := [] }

/-- A state with `A = 0x80` and carry set: `0x80 - 0x01` overflows the signed
range. -/
def sbcOverflowExample : State :=
  { cpu := { A := 0x80, X := 0, Y := 0, SP := 0xFF, PC := 0,
             P := { C := true, Z := false, I := false, D := false, B := false,
                    U := true, V := false, N := false } },
    memory := fun _ => 0,
    out := [] }

/-- A program whose first byte, `0x02`, is not a dispatched opcode; it is
followed by `LDA #$42` (`0xA9 0x42`) and the halt opcode `0x00`. -/
def unknownOpcodeExample : State :=
  { cpu := { A := 0, X := 0, Y := 0, SP := 0xFF, PC := 0,
             P := { C := false, Z := false, I := false, D := false, B := false,
                    U := true, V := false, N := false } },
    memory := fun a => if a = 0 then 0x02 else if a = 1 then 0xA9 else if a = 2 then 0x42 else 0,
    out := [] }

/-- The opcodes `cpu_step` dispatches on. -/
def dispatched : List Nat :=
  [0xA9, 0x8D, 0xA2, 0xE8, 0xE0, 0x90, 0x4C, 0x8A, 0x69, 0xCA, 0xD0, 0x20, 0x60, 0x00]

/-- The state `s` with its accumulator replaced. -/
def State.withA (s : State) (a : Nat) : State :=
  { s with cpu := { s.cpu with A := a } }

/-- A state for the compare tests: `A = 0x10` ("CMP negative result"),
`X = 0x10` ("CPX"), `Y = 0x05` ("CPY"). -/
def cmpExample : State :=
  { cpu := { A := 0x10, X := 0x10, Y := 0x05, SP := 0xFF, PC := 0,
             P := { C := false, Z := false, I := false, D := false, B := false,
                    U := true, V := false, N := false } },
    memory := fun _ => 0,
    out := [] }

/-- A state at the wraparound: `X = 0xFF` (test "INX wraparound"), `Y = 0x00`,
and the byte `0xFF` at address `0x0200`. -/
def wrapExample : State :=
  { cpu := { A := 0, X := 0xFF, Y := 0x00, SP := 0xFF, PC := 0,
             P := { C := false, Z := false, I := false, D := false, B := false,
                    U := true, V := false, N := false } },
    memory := fun a => if a = 0x0200 then 0xFF else 0,
    out := [] }

/-- The state of the test "ROL uses carry-in": `A = 0x7F`, carry set. -/
def rolExample : State :=
  { cpu := { A := 0x7F, X := 0, Y := 0, SP := 0xFF, PC := 0,
             P := { C := true, Z := false, I := false, D := false, B := false,
                    U := true, V := false, N := false } },
    memory := fun _ => 0,
    out := [] }

/-- The state of the test "ROR uses carry-in": `A = 0x00`, carry set. -/
def rorExample : State :=
  { cpu := { A := 0x00, X := 0, Y := 0, SP := 0xFF, PC := 0,
             P := { C := true, Z := true, I := false, D := false, B := false,
                    U := true, V := false, N := false } },
    memory := fun _ => 0,
    out := [] }

/-- A state with the byte `0x01` at address `0x0200`: shifting it right loses
bit 0. -/
def rorMemExample : State :=
  { cpu := { A := 0, X := 0, Y := 0, SP := 0xFF, PC := 0,
             P := { C := false, Z := false, I := false, D := false, B := false,
                    U := true, V := false, N := false } },
    memory := fun a => if a = 0x0200 then 0x01 else 0,
    out := [] }

/-- The states of the tests "ASL A" (`A = 0x40`) and, at address `0x0200`, a
byte `0x81` with both end bits set. -/
def shiftExample : State :=
  { cpu := { A := 0x40, X := 0, Y := 0, SP := 0xFF, PC := 0,
             P := { C := false, Z := false, I := false, D := false, B := false,
                    U := true, V := false, N := false } },
    memory := fun a => if a = 0x0200 then 0x81 else 0,
    out := [] }

/-- A state whose `PC = 0x8000` points at the halt opcode `0x00`, with the
vector `0xFFFE/0xFFFF` holding `0x34`, `0x12` and the interrupt flag clear. -/
def haltExample : State :=
  { cpu := { A := 0x11, X := 0x22, Y := 0x33, SP := 0xFF, PC := 0x8000,
             P := { C := true, Z := false, I := false, D := false, B := false,
                    U := true, V := false, N := false } },
    memory := fun a => if a = 0xFFFE then 0x34 else if a = 0xFFFF then 0x12 else 0,
    out := [] }

/-- A state with `BCC 0xF0` (`0x90 0xF0`) at `PC = 0x2000`, carry clear: the
branch is taken, sixteen bytes back. -/
def bccExample : State :=
  { cpu := { A := 0, X := 0, Y := 0, SP := 0xFF, PC := 0x2000,
             P := { C := false, Z := false, I := false, D := false, B := false,
                    U := true, V := false, N := false } },
    memory := fun a => if a = 0x2000 then 0x90 else if a = 0x2001 then 0xF0 else 0,
    out := [] }

/-- A state with `BNE 0x10` (`0xD0 0x10`) at `PC = 0xFFFF`, so that the operand
is read at `0x0000`; `Z = 1`, the branch is not taken. -/
def bneExample : State :=
  { cpu := { A := 0, X := 0, Y := 0, SP := 0xFF, PC := 0xFFFF,
             P := { C := false, Z := true, I := false, D := false, B := false,
                    U := true, V := false, N := false } },
    memory := fun a => if a = 0xFFFF then 0xD0 else if a = 0x0000 then 0x10 else 0,
    out := [] }

/-- The state of the test "JSR pushes correct return address": `SP = 0xFF`,
`PC = 0x1234`. -/
def jsrLayoutExample : State :=
  { cpu := { A := 0, X := 0, Y := 0, SP := 0xFF, PC := 0x1234,
             P := { C := false, Z := false, I := false, D := false, B := false,
                    U := true, V := false, N := false } },
    memory := fun _ => 0,
    out := [] }

/-- One call of an operation of the semantics library (`cpu.c`, the static
helper `unpack_P` included), of `STA_os` (`STA_program`), or of `cpu_step`
(`step`), with its arguments. -/
inductive Op where
  | reset_cpu
  | unpack (value : Nat)
  | push (value : Nat)
  | pull
  | ADC (M : Nat)
  | AND (M : Nat)
  | BRK
  | BCC (offset : Nat)
  | BCS (offset : Nat)
  | BEQ (offset : Nat)
  | BIT (M : Nat)
  | BMI (offset : Nat)
  | BNE (offset : Nat)
  | BPL (offset : Nat)
  | CLC
  | CLD
  | CLI
  | CLV
  | CMP (M : Nat)
  | CPX (M : Nat)
  | CPY (M : Nat)
  | DEC (addr : Nat)
  | DEX
  | DEY
  | EOR (M : Nat)
  | INC (addr : Nat)
  | INX
  | INY
  | JMP (addr : Nat)
  | LDA (M : Nat)
  | LDX (M : Nat)
  | LDY (M : Nat)
  | ORA (M : Nat)
  | PHA
  | PLA
  | SEC
  | SED
  | SEI
  | STA (addr : Nat)
  | STX (addr : Nat)
  | STY (addr : Nat)
  | TAX
  | TAY
  | TSX
  | TXA
  | TXS
  | TYA
  | SBC (M : Nat)
  | ASL_A
  | ASL_M (addr : Nat)
  | LSR_A
  | LSR_M (addr : Nat)
  | ROL_A
  | ROL_M (addr : Nat)
  | ROR_A
  | ROR_M (addr : Nat)
  | BVC (offset : Nat)
  | BVS (offset : Int)
  | PHP
  | PLP
  | JSR (addr : Nat)
  | RTS
  | RTI
  | NOP
  | STA_program (addr : Nat)
  | step

/-- The state after the call `op` made in the state `t` (a returned byte is
dropped). -/
def Op.run : Op → State → State
  | .reset_cpu, t => reset_cpu_c t
  | .unpack value, t => unpack_P t value
  | .push value, t => push_c t value
  | .pull, t => (pull_c t).1
  | .ADC M, t => ADC_c t M
  | .AND M, t => AND_c t M
  | .BRK, t => BRK_c t
  | .BCC offset, t => BCC_c t offset
  | .BCS offset, t => BCS_c t offset
  | .BEQ offset, t => BEQ_c t offset
  | .BIT M, t => BIT_c t M
  | .BMI offset, t => BMI_c t offset
  | .BNE offset, t => BNE_c t offset
  | .BPL offset, t => BPL_c t offset
  | .CLC, t => CLC_c t
  | .CLD, t => CLD_c t
  | .CLI, t => CLI_c t
  | .CLV, t => CLV_c t
  | .CMP M, t => CMP_c t M
  | .CPX M, t => CPX_c t M
  | .CPY M, t => CPY_c t M
  | .DEC addr, t => DEC_c t addr
  | .DEX, t => DEX_c t
  | .DEY, t => DEY_c t
  | .EOR M, t => EOR_c t M
  | .INC addr, t => INC_c t addr
  | .INX, t => INX_c t
  | .INY, t => INY_c t
  | .JMP addr, t => JMP_c t addr
  | .LDA M, t => LDA_c t M
  | .LDX M, t => LDX_c t M
  | .LDY M, t => LDY_c t M
  | .ORA M, t => ORA_c t M
  | .PHA, t => PHA_c t
  | .PLA, t => (PLA_c t).1
  | .SEC, t => SEC_c t
  | .SED, t => SED_c t
  | .SEI, t => SEI_c t
  | .STA addr, t => STA_c t addr
  | .STX addr, t => STX_c t addr
  | .STY addr, t => STY_c t addr
  | .TAX, t => TAX_c t
  | .TAY, t => TAY_c t
  | .TSX, t => TSX_c t
  | .TXA, t => TXA_c t
  | .TXS, t => TXS_c t
  | .TYA, t => TYA_c t
  | .SBC M, t => SBC_c t M
  | .ASL_A, t => ASL_A_c t
  | .ASL_M addr, t => ASL_M_c t addr
  | .LSR_A, t => LSR_A_c t
  | .LSR_M addr, t => LSR_M_c t addr
  | .ROL_A, t => ROL_A_c t
  | .ROL_M addr, t => ROL_M_c t addr
  | .ROR_A, t => ROR_A_c t
  | .ROR_M addr, t => ROR_M_c t addr
  | .BVC offset, t => BVC_c t offset
  | .BVS offset, t => BVS_c t offset
  | .PHP, t => PHP_c t
  | .PLP, t => PLP_c t
  | .JSR addr, t => JSR_c t addr
  | .RTS, t => RTS_c t
  | .RTI, t => RTI_c t
  | .NOP, t => NOP_c t
  | .STA_program addr, t => STA_os t addr
  | .step, t => cpu_step t

/-- A finite sequence of calls, made in order from the state `s`. -/
def run_ops (s : State) (ops : List Op) : State :=
  ops.foldl (fun t op => op.run t) s

/-! ## Bit-level lemmas -/

theorem testBit7_eq (x : Nat) : x.testBit 7 = decide (x / 128 % 2 = 1) := by
  rw [Nat.testBit_to_div_mod]

theorem and_0x80_ne_zero (x : Nat) : (x &&& 0x80 ≠ 0) ↔ x.testBit 7 = true := by
  have h := Nat.and_two_pow x 7
  have e : (2 : Nat) ^ 7 = 0x80 := by norm_num
  rw [e] at h
  rw [h]
  cases x.testBit 7 <;> simp

theorem compl_testBit7 (x : Nat) : (compl x).testBit 7 = !x.testBit 7 := by
  unfold compl
  rw [Nat.testBit_xor]
  have : Nat.testBit 0xFFFFFFFF 7 = true := by decide
  rw [this]; simp

theorem int8_t_of_lt (v : Nat) (h : v < 256) :
    int8_t v = if v < 128 then (v : Int) else (v : Int) - 256 := by
  unfold int8_t
  rw [Nat.mod_eq_of_lt h]

set_option maxRecDepth 100000 in
theorem xor_0xFF_fin : ∀ m : Fin 256, m.val ^^^ 0x00FF = 255 - m.val := by decide

theorem xor_0xFF (M : Nat) (hM : M < 256) : M ^^^ 0x00FF = 255 - M :=
  xor_0xFF_fin ⟨M, hM⟩

theorem or_0x100 (x : Nat) (h : x < 256) : 0x0100 ||| x = 256 + x := by
  have := @Nat.mul_add_lt_is_or 8 x (by omega) 1
  simpa using this.symm

theorem shl8_or (h l : Nat) (hl : l < 256) : (h <<< 8) ||| l = h * 256 + l := by
  have := @Nat.mul_add_lt_is_or 8 l (by omega) h
  rw [Nat.shiftLeft_eq, Nat.mul_comm h, ← this]

theorem and_0xFF (x : Nat) : x &&& 0xFF = x % 256 := Nat.and_pow_two_sub_one_eq_mod x 8

theorem shr8 (x : Nat) : x >>> 8 = x / 256 := Nat.shiftRight_eq_div_pow x 8

/-! ## Stack lemmas -/

theorem push_c_SP (s : State) (v : Nat) : (push_c s v).cpu.SP = u8i ((s.cpu.SP : Int) - 1) := rfl

theorem push_c_SP_lt (s : State) (v : Nat) : (push_c s v).cpu.SP < 256 := by
  rw [push_c_SP]; unfold u8i; omega

theorem push_c_memory (s : State) (v a : Nat) :
    (push_c s v).memory a = if a = (0x0100 ||| s.cpu.SP) then v else s.memory a := rfl

/-- A run of at most `255 - k` pushes does not reach the cell `k + 1` places
above the stack pointer. -/
theorem push_all_memory_above (l : List Nat) :
    ∀ (s : State) (k : Nat), s.cpu.SP < 256 → l.length + k ≤ 255 →
      (push_all s l).memory (0x0100 ||| u8 (s.cpu.SP + 1 + k)) =
        s.memory (0x0100 ||| u8 (s.cpu.SP + 1 + k)) := by
  induction l with
  | nil => intro s k _ _; rfl
  | cons v vs ih =>
    intro s k hSP hlen
    simp only [List.length_cons] at hlen
    have h1 := ih (push_c s v) (k + 1) (push_c_SP_lt s v) (by omega)
    have e : u8 ((push_c s v).cpu.SP + 1 + (k + 1)) = u8 (s.cpu.SP + 1 + k) := by
      rw [push_c_SP]; unfold u8 u8i; omega
    rw [e] at h1
    show (push_all (push_c s v) vs).memory _ = _
    rw [h1, push_c_memory]
    have hne : (0x0100 ||| u8 (s.cpu.SP + 1 + k)) ≠ (0x0100 ||| s.cpu.SP) := by
      rw [or_0x100 _ hSP, or_0x100 _ (by unfold u8; omega)]
      unfold u8; omega
    rw [if_neg hne]

theorem pull_n_succ_last (n : Nat) :
    ∀ s : State, pull_n (n + 1) s =
      ((pull_c (pull_n n s).1).1, (pull_n n s).2 ++ [(pull_c (pull_n n s).1).2]) := by
  induction n with
  | zero => intro s; rfl
  | succ n ih =>
    intro s
    have h := ih (pull_c s).1
    show ((pull_n (n + 1) (pull_c s).1).1, (pull_c s).2 :: (pull_n (n + 1) (pull_c s).1).2) = _
    rw [h]
    rfl

/-- Pushing a list of at most 256 bytes and pulling as many bytes back gives
the list reversed and the register file of the start; the memory is the one
the pushes left. -/
theorem pull_n_push_all (l : List Nat) :
    ∀ s : State, s.cpu.SP < 256 → l.length ≤ 256 →
      pull_n l.length (push_all s l) = ({ push_all s l with cpu := s.cpu }, l.reverse) := by
  induction l with
  | nil => intro s _ _; rfl
  | cons v vs ih =>
    intro s hSP hlen
    simp only [List.length_cons] at hlen
    have h1 := ih (push_c s v) (push_c_SP_lt s v) (by omega)
    have hm := push_all_memory_above vs (push_c s v) 0 (push_c_SP_lt s v) (by omega)
    have e : u8 ((push_c s v).cpu.SP + 1 + 0) = s.cpu.SP := by
      rw [push_c_SP]; unfold u8 u8i; omega
    rw [e, push_c_memory, if_pos rfl] at hm
    have e2 : u8 (u8i ((s.cpu.SP : Int) - 1) + 1) = s.cpu.SP := by
      unfold u8 u8i; omega
    show pull_n (vs.length + 1) (push_all (push_c s v) vs) = _
    rw [pull_n_succ_last, h1]
    simp only [pull_c, push_c, List.reverse_cons, e2]
    simp only [push_c] at hm
    rw [hm]
    rfl

theorem u8_u8i_pred_succ (sp : Nat) (h : sp < 256) : u8 (u8i ((sp : Int) - 1) + 1) = sp := by
  unfold u8 u8i; omega

theorem u8i_pred_lt (sp : Nat) : u8i ((sp : Int) - 1) < 256 := by
  unfold u8i; omega

theorem stack_addr_ne (sp : Nat) (h : sp < 256) :
    (0x0100 ||| sp) ≠ (0x0100 ||| u8i ((sp : Int) - 1)) := by
  rw [or_0x100 _ h, or_0x100 _ (u8i_pred_lt sp)]
  unfold u8i; omega

theorem stack_addr_ne2 (sp : Nat) (h : sp < 256) :
    (0x0100 ||| sp) ≠ (0x0100 ||| u8i ((u8i ((sp : Int) - 1) : Int) - 1)) := by
  rw [or_0x100 _ h, or_0x100 _ (u8i_pred_lt _)]
  unfold u8i; omega

theorem stack_addr_lt (sp : Nat) (h : sp < 256) : (0x0100 ||| sp) < 0x200 := by
  rw [or_0x100 _ h]; omega

/-- Splitting a 16-bit word into its bytes and joining them again. -/
theorem word_split_join (w : Nat) (hw : w < 65536) :
    u16 ((u16 ((w >>> 8) &&& 0xFF) <<< 8) ||| (w &&& 0xFF)) = w := by
  rw [and_0xFF, and_0xFF, shr8, shl8_or _ _ (Nat.mod_lt _ (by norm_num))]
  unfold u16; omega

/-! ## Flag packing lemmas -/

theorem bitfield_bit (v k : Nat) : bitfield ((v >>> k) &&& 1) = v.testBit k := by
  simp [bitfield, Nat.testBit, Nat.and_comm]

/-- The bits of the byte `pack_P(cpu) | 0x10` that `PHP_c` and `BRK_c` push. -/
theorem pack_P_or_0x10_bits (s : State) :
    (u8 (pack_P s ||| 0x10)).testBit 7 = s.cpu.P.N ∧
    (u8 (pack_P s ||| 0x10)).testBit 6 = s.cpu.P.V ∧
    (u8 (pack_P s ||| 0x10)).testBit 5 = true ∧
    (u8 (pack_P s ||| 0x10)).testBit 4 = true ∧
    (u8 (pack_P s ||| 0x10)).testBit 3 = s.cpu.P.D ∧
    (u8 (pack_P s ||| 0x10)).testBit 2 = s.cpu.P.I ∧
    (u8 (pack_P s ||| 0x10)).testBit 1 = s.cpu.P.Z ∧
    (u8 (pack_P s ||| 0x10)).testBit 0 = s.cpu.P.C := by
  rcases s with ⟨⟨A, X, Y, SP, PC, ⟨C, Z, I, D, B, U, V, N⟩⟩, m, o⟩
  simp only [pack_P]
  cases C <;> cases Z <;> cases I <;> cases D <;> cases B <;> cases V <;> cases N <;> decide

theorem unpack_P_flags (s : State) (v : Nat) :
    (unpack_P s v).cpu.P =
      { N := v.testBit 7, V := v.testBit 6, U := true, B := false, D := v.testBit 3,
        I := v.testBit 2, Z := v.testBit 1, C := v.testBit 0 } := by
  simp only [unpack_P, bitfield_bit]

/-! ## C1: `ADC_c` -/

/-- C1: for every CPU state and operand byte `M`, `ADC_c` leaves
`A' = (A + M + C) mod 256`, `C' = 1` iff `A + M + C > 255`, `Z' = 1` iff
`A' = 0`, `N'` = bit 7 of `A'`, and `V' = 1` iff the operands share a sign and
the sign of the result differs, which is exactly when the two's-complement sum
`signed(A) + signed(M) + C` lies outside `-128..127`; `X`, `Y`, `SP`, `PC`, the
flags `I`, `D`, `B`, `U`, the memory and the output are unchanged. -/
theorem ADC_c_spec (s : State) (M : Nat) (hA : s.cpu.A < 256) (hM : M < 256) :
    (ADC_c s M).cpu.A = (s.cpu.A + M + s.cpu.P.C.toNat) % 256 ∧
    ((ADC_c s M).cpu.P.C = true ↔ s.cpu.A + M + s.cpu.P.C.toNat > 255) ∧
    ((ADC_c s M).cpu.P.Z = true ↔ (ADC_c s M).cpu.A = 0) ∧
    (ADC_c s M).cpu.P.N = (ADC_c s M).cpu.A.testBit 7 ∧
    ((ADC_c s M).cpu.P.V = true ↔
      (s.cpu.A.testBit 7 = M.testBit 7 ∧
        (ADC_c s M).cpu.A.testBit 7 ≠ s.cpu.A.testBit 7)) ∧
    ((ADC_c s M).cpu.P.V = true ↔
      ¬ (-128 ≤ int8_t s.cpu.A + int8_t M + (s.cpu.P.C.toNat : Int) ∧
          int8_t s.cpu.A + int8_t M + (s.cpu.P.C.toNat : Int) ≤ 127)) ∧
    (ADC_c s M).cpu.X = s.cpu.X ∧ (ADC_c s M).cpu.Y = s.cpu.Y ∧
    (ADC_c s M).cpu.SP = s.cpu.SP ∧ (ADC_c s M).cpu.PC = s.cpu.PC ∧
    (ADC_c s M).cpu.P.I = s.cpu.P.I ∧ (ADC_c s M).cpu.P.D = s.cpu.P.D ∧
    (ADC_c s M).cpu.P.B = s.cpu.P.B ∧ (ADC_c s M).cpu.P.U = s.cpu.P.U ∧
    (ADC_c s M).memory = s.memory ∧ (ADC_c s M).out = s.out := by
  have hc : (if s.cpu.P.C = true then 1 else 0) = s.cpu.P.C.toNat := by
    cases s.cpu.P.C <;> rfl
  have hc1 : s.cpu.P.C.toNat ≤ 1 := by cases s.cpu.P.C <;> simp
  simp only [ADC_c, hc, u16, u8, U8_MAX]
  generalize s.cpu.P.C.toNat = c at hc1 ⊢
  generalize s.cpu.A = a at hA ⊢
  have hsum : (a + M + c) % 65536 = a + M + c := Nat.mod_eq_of_lt (by omega)
  rw [hsum, int8_t_of_lt a hA, int8_t_of_lt M hM]
  simp only [and_0x80_ne_zero, Nat.testBit_and, Nat.testBit_xor, compl_testBit7]
  simp only [testBit7_eq]
  refine ⟨trivial, ?_, ?_, ?_, ?_, ?_, trivial, trivial, trivial, trivial, trivial, trivial,
    trivial, trivial, trivial, trivial⟩
  · simp
  · simp
  · simp
  · simp
    omega
  · simp
    omega

/-- Witness for `ADC_c_spec`: the test "ADC overflow behavior"
(`A = 0x50`, `C = 0`, `M = 0x50` gives `A = 0xA0`). -/
theorem ADC_c_spec_witness :
    (adcExample.cpu.A < 256 ∧ (0x50 : Nat) < 256) ∧
    (ADC_c adcExample 0x50).cpu.A = (0x50 + 0x50 + 0) % 256 :=
  ⟨⟨by decide, by decide⟩, (ADC_c_spec adcExample 0x50 (by decide) (by decide)).1⟩

/-! ## C2, C3: `SBC_c` -/

/-- C2: for every CPU state and operand byte `M`, `SBC_c` leaves
`A' = (A - M - (1 - C)) mod 256`, `C' = 1` iff no borrow occurred
(`A ≥ M + (1 - C)` as unsigned integers), `Z' = 1` iff `A' = 0` and
`N'` = bit 7 of `A'`. -/
theorem SBC_c_spec (s : State) (M : Nat) (hA : s.cpu.A < 256) (hM : M < 256) :
    (((SBC_c s M).cpu.A : Nat) : Int) =
      ((s.cpu.A : Int) - (M : Int) - (1 - (s.cpu.P.C.toNat : Int))) % 256 ∧
    ((SBC_c s M).cpu.P.C = true ↔ s.cpu.A ≥ M + (1 - s.cpu.P.C.toNat)) ∧
    ((SBC_c s M).cpu.P.Z = true ↔ (SBC_c s M).cpu.A = 0) ∧
    (SBC_c s M).cpu.P.N = (SBC_c s M).cpu.A.testBit 7 := by
  have hc : (if s.cpu.P.C = true then 1 else 0) = s.cpu.P.C.toNat := by
    cases s.cpu.P.C <;> rfl
  have hc1 : s.cpu.P.C.toNat ≤ 1 := by cases s.cpu.P.C <;> simp
  have hv : u16 (u16 M ^^^ 0x00FF) = 255 - M := by
    have h1 : u16 M = M := Nat.mod_eq_of_lt (by omega)
    have h2 : M ^^^ 0x00FF = 255 - M := xor_0xFF M hM
    rw [h1, h2]
    exact Nat.mod_eq_of_lt (by omega)
  have h100 : ∀ x : Nat, (x &&& 0x100 ≠ 0) ↔ x / 256 % 2 = 1 := by
    intro x
    have h := Nat.and_two_pow x 8
    have e : (2 : Nat) ^ 8 = 0x100 := by norm_num
    rw [e] at h
    rw [h, Nat.testBit_to_div_mod]
    by_cases hx : x / 2 ^ 8 % 2 = 1
    · simp only [hx, decide_True, Bool.toNat_true]; norm_num at hx ⊢; exact hx
    · simp only [hx, decide_False, Bool.toNat_false]; norm_num at hx ⊢; exact hx
  simp only [SBC_c, hc, hv, u8]
  generalize s.cpu.P.C.toNat = c at hc1 ⊢
  generalize s.cpu.A = a at hA ⊢
  have hsum : u16 (a + (255 - M) + c) = a + (255 - M) + c := Nat.mod_eq_of_lt (by omega)
  rw [hsum]
  simp only [and_0x80_ne_zero, h100]
  refine ⟨?_, ?_, ?_, ?_⟩
  · omega
  · simp; omega
  · simp
  · simp

/-- Witness for `SBC_c_spec`: the tests "SBC" (`A = 0x10`, `C = 1`, `M = 0x01`
gives `A = 0x0F`, `C = 1`). -/
theorem SBC_c_spec_witness :
    (sbcExample.cpu.A < 256 ∧ (0x01 : Nat) < 256) ∧
    (((SBC_c sbcExample 0x01).cpu.A : Nat) : Int) = ((0x10 : Int) - 0x01 - (1 - 1)) % 256 :=
  ⟨⟨by decide, by decide⟩, (SBC_c_spec sbcExample 0x01 (by decide) (by decide)).1⟩

/-- C3 (the code departs from the claim): `SBC_c` computes its overflow test
from the accumulator it has already overwritten, so the `V` it leaves is 0 in
every state; at `A = 0x80`, `M = 0x01`, `C = 1` it leaves `V = 0`, while
`ADC_c` on the complemented operand `0x01 xor 0xFF` leaves `V = 1` from the
same state. -/
theorem SBC_c_overflow_never_set :
    (∀ (s : State) (M : Nat), (SBC_c s M).cpu.P.V = false) ∧
    (SBC_c sbcOverflowExample 0x01).cpu.P.V = false ∧
    (ADC_c sbcOverflowExample (0x01 ^^^ 0xFF)).cpu.P.V = true := by
  refine ⟨?_, by decide, by decide⟩
  intro s M
  simp only [SBC_c, u8]
  have h : ∀ x y : Nat, ((x ^^^ x % 256) &&& y &&& 0x0080) = 0 := by
    intro x y
    apply Nat.eq_of_testBit_eq
    intro i
    have e : (256 : Nat) = 2 ^ 8 := by norm_num
    have e7 : (0x0080 : Nat) = 2 ^ 7 := by norm_num
    rw [e, e7]
    simp only [Nat.testBit_and, Nat.testBit_xor, Nat.testBit_mod_two_pow, Nat.testBit_two_pow,
      Nat.zero_testBit]
    by_cases hi : 7 = i
    · subst hi; simp
    · simp [hi]
  simp [h]

/-! ## C4: the loop on an unrecognised opcode -/

/-- The loop of `run_cpu` leaves only on the opcode `0x00`: on any other
opcode it goes on with the state `cpu_step` produced. -/
theorem run_cpu_succ_of_ne (fuel : Nat) (s : State) (h : s.memory s.cpu.PC ≠ 0x00) :
    run_cpu (fuel + 1) s = run_cpu fuel (cpu_step s) := by
  simp only [run_cpu, h, if_false]

/-- C4 (the code departs from the claim): with the unrecognised opcode `0x02`
at `PC`, `cpu_step` reports it and advances `PC`, but `run_cpu` has not
stopped after that one step; it goes on to fetch and execute the following
`LDA #$42` and stops only at the `0x00` after it, three steps in all. -/
theorem run_cpu_continues_after_unknown_opcode :
    unknownOpcodeExample.memory unknownOpcodeExample.cpu.PC = 0x02 ∧
    0x02 ∉ dispatched ∧
    (cpu_step unknownOpcodeExample).cpu.PC = 1 ∧
    (cpu_step unknownOpcodeExample).cpu.A = 0 ∧
    (cpu_step unknownOpcodeExample).out = [OutEvent.unknownOpcode 0x02 0] ∧
    (run_cpu 1 unknownOpcodeExample).isSome = false ∧
    (run_cpu 2 unknownOpcodeExample).isSome = false ∧
    (run_cpu 3 unknownOpcodeExample).map (fun t => (t.cpu.A, t.cpu.PC, t.out)) =
      some (0x42, 4, [OutEvent.unknownOpcode 0x02 0]) := by
  refine ⟨by decide, by decide, by decide, by decide, by decide, by decide, by decide, by decide⟩

/-! ## C5: the stack is LIFO -/

/-- C5: for every CPU state (any starting `SP`, wraparound through `0x00`
included) and every list of at most 256 bytes, pushing the list with `push_c`
and then calling `pull_c` the same number of times returns the bytes in
reverse order and leaves `SP` equal to its value before the first push. -/
theorem push_pull_lifo (s : State) (l : List Nat) (hSP : s.cpu.SP < 256)
    (hl : l.length ≤ 256) :
    (pull_n l.length (push_all s l)).2 = l.reverse ∧
    (pull_n l.length (push_all s l)).1.cpu.SP = s.cpu.SP := by
  rw [pull_n_push_all l s hSP hl]
  exact ⟨rfl, rfl⟩

/-- Witness for `push_pull_lifo`: from `SP = 0x00`, push `0xAA`, push `0xBB`
(the stack pointer wraps to `0xFF`, then `0xFE`), then two pulls return
`0xBB`, `0xAA` and leave `SP = 0x00`. -/
theorem push_pull_lifo_witness :
    (stackExample.cpu.SP < 256 ∧ [0xAA, 0xBB].length ≤ 256) ∧
    (pull_n 2 (push_all stackExample [0xAA, 0xBB])).2 = [0xBB, 0xAA] ∧
    (pull_n 2 (push_all stackExample [0xAA, 0xBB])).1.cpu.SP = 0x00 :=
  ⟨⟨by decide, by decide⟩, push_pull_lifo stackExample [0xAA, 0xBB] (by decide) (by decide)⟩

/-! ## C6: `JSR_c` then `RTS_c` -/

/-- C6: for every CPU state (any `PC`, `0x0000` included, and any `SP`,
wrapping ones included) and every target address, `JSR_c` followed immediately
by `RTS_c` restores `PC` and `SP` to their values before the `JSR_c`. -/
theorem JSR_RTS_roundtrip (s : State) (addr : Nat) (hSP : s.cpu.SP < 256)
    (hPC : s.cpu.PC < 65536) :
    (RTS_c (JSR_c s addr)).cpu.PC = s.cpu.PC ∧
    (RTS_c (JSR_c s addr)).cpu.SP = s.cpu.SP := by
  have e1 := u8_u8i_pred_succ s.cpu.SP hSP
  have e2 := u8_u8i_pred_succ (u8i ((s.cpu.SP : Int) - 1)) (u8i_pred_lt _)
  have n1 := stack_addr_ne s.cpu.SP hSP
  have hr : u16i ((s.cpu.PC : Int) - 1) < 65536 := by unfold u16i; omega
  simp only [RTS_c, JSR_c, pull_c, push_c, store, e1, e2, if_pos, if_neg n1]
  refine ⟨?_, trivial⟩
  have hj := word_split_join (u16i ((s.cpu.PC : Int) - 1)) hr
  unfold u16 at hj ⊢
  unfold u16i at hj ⊢
  omega

/-- Witness for `JSR_RTS_roundtrip`: the test "JSR/RTS" (`PC = 0x3000`,
`JSR 0x4000`, `RTS` gives `PC = 0x3000`), run with `SP = 0x00`. -/
theorem JSR_RTS_roundtrip_witness :
    (jsrExample.cpu.SP < 256 ∧ jsrExample.cpu.PC < 65536) ∧
    (RTS_c (JSR_c jsrExample 0x4000)).cpu.PC = 0x3000 ∧
    (RTS_c (JSR_c jsrExample 0x4000)).cpu.SP = 0x00 :=
  ⟨⟨by decide, by decide⟩, JSR_RTS_roundtrip jsrExample 0x4000 (by decide) (by decide)⟩

/-! ## C7: `BRK_c` then `RTI_c` -/

/-- C7: for every CPU state with `B = 0` and `U = 1` (any `PC`, any `SP`, any
memory), `BRK_c` and then `RTI_c` on the frame `BRK_c` pushed restores `PC` to
the pre-BRK `PC` plus 1 (mod 65536), every flag `C`, `Z`, `I`, `D`, `B`, `U`,
`V`, `N` to its pre-BRK value, and `SP`; in the intermediate state after
`BRK_c` the `I` flag is 1 and `PC` is the little-endian word at
`0xFFFE/0xFFFF`. -/
theorem BRK_RTI_roundtrip (s : State) (hSP : s.cpu.SP < 256)
    (hmem : MemWF s.memory) (hB : s.cpu.P.B = false) (hU : s.cpu.P.U = true) :
    (RTI_c (BRK_c s)).cpu.PC = (s.cpu.PC + 1) % 65536 ∧
    (RTI_c (BRK_c s)).cpu.P = s.cpu.P ∧
    (RTI_c (BRK_c s)).cpu.SP = s.cpu.SP ∧
    (BRK_c s).cpu.P.I = true ∧
    (BRK_c s).cpu.PC = (BRK_c s).memory 0xFFFE + 256 * (BRK_c s).memory 0xFFFF ∧
    (BRK_c s).memory 0xFFFE = s.memory 0xFFFE ∧
    (BRK_c s).memory 0xFFFF = s.memory 0xFFFF := by
  have l0 := u8i_pred_lt s.cpu.SP
  have l1 := u8i_pred_lt (u8i ((s.cpu.SP : Int) - 1))
  have e0 := u8_u8i_pred_succ s.cpu.SP hSP
  have e1 := u8_u8i_pred_succ (u8i ((s.cpu.SP : Int) - 1)) l0
  have e2 := u8_u8i_pred_succ (u8i ((u8i ((s.cpu.SP : Int) - 1) : Int) - 1)) l1
  have n0 := stack_addr_ne s.cpu.SP hSP
  have n1 := stack_addr_ne (u8i ((s.cpu.SP : Int) - 1)) l0
  have n2 := stack_addr_ne2 s.cpu.SP hSP
  have a0 := stack_addr_lt s.cpu.SP hSP
  have a1 := stack_addr_lt _ l0
  have a2 := stack_addr_lt _ l1
  have v0 : (0xFFFE : Nat) ≠ (0x0100 ||| s.cpu.SP) := by omega
  have v1 : (0xFFFE : Nat) ≠ (0x0100 ||| u8i ((s.cpu.SP : Int) - 1)) := by omega
  have v2 : (0xFFFE : Nat) ≠ (0x0100 ||| u8i ((u8i ((s.cpu.SP : Int) - 1) : Int) - 1)) := by
    omega
  have w0 : (0xFFFF : Nat) ≠ (0x0100 ||| s.cpu.SP) := by omega
  have w1 : (0xFFFF : Nat) ≠ (0x0100 ||| u8i ((s.cpu.SP : Int) - 1)) := by omega
  have w2 : (0xFFFF : Nat) ≠ (0x0100 ||| u8i ((u8i ((s.cpu.SP : Int) - 1) : Int) - 1)) := by
    omega
  have hbits := pack_P_or_0x10_bits s
  have hword := word_split_join ((s.cpu.PC + 1) % 65536) (Nat.mod_lt _ (by norm_num))
  have hlo := hmem 0xFFFE
  have hhi := hmem 0xFFFF
  refine ⟨?_, ?_, ?_, ?_, ?_, ?_, ?_⟩
  · simp only [RTI_c, BRK_c, unpack_P, pull_c, push_c, store, e0, e1, e2, if_pos, if_neg n0,
      if_neg n1, if_neg n2, u16] at hword ⊢
    exact hword
  · simp only [RTI_c, BRK_c, pull_c, push_c, store, e0, e1, e2, if_pos, unpack_P_flags]
    have hp : pack_P (push_c (push_c { s with cpu := { s.cpu with PC := u16 (s.cpu.PC + 1) } }
        ((u16 (s.cpu.PC + 1) >>> 8) &&& 0xFF)) (u16 (s.cpu.PC + 1) &&& 0xFF)) = pack_P s := rfl
    simp only [push_c, store] at hp
    simp only [unpack_P, hp, hbits, ← hB, ← hU]
  · simp only [RTI_c, BRK_c, unpack_P, pull_c, push_c, store, e0, e1, e2]
  · rfl
  · simp only [BRK_c, push_c, store, if_neg v0, if_neg v1, if_neg v2, if_neg w0, if_neg w1,
      if_neg w2]
    rw [shl8_or _ _ hlo]
    unfold u16; omega
  · simp only [BRK_c, push_c, store, if_neg v0, if_neg v1, if_neg v2]
  · simp only [BRK_c, push_c, store, if_neg w0, if_neg w1, if_neg w2]

/-- Witness for `BRK_RTI_roundtrip`: from `PC = 0xFFFF`, `SP = 0x01` the
return address wraps to `0x0000`, the stack pointer wraps and comes back, and
the handler starts at `0x1234` with `I = 1`. -/
theorem BRK_RTI_roundtrip_witness :
    (brkExample.cpu.SP < 256 ∧ MemWF brkExample.memory ∧ brkExample.cpu.P.B = false ∧
      brkExample.cpu.P.U = true) ∧
    (RTI_c (BRK_c brkExample)).cpu.PC = 0x0000 ∧
    (RTI_c (BRK_c brkExample)).cpu.P = brkExample.cpu.P ∧
    (RTI_c (BRK_c brkExample)).cpu.SP = 0x01 ∧
    (BRK_c brkExample).cpu.P.I = true ∧
    (BRK_c brkExample).cpu.PC = 0x1234 :=
  have hm : MemWF brkExample.memory := fun a => by
    show (if a = 0xFFFE then 0x34 else if a = 0xFFFF then 0x12 else 0) < 256
    split_ifs <;> decide
  have h := BRK_RTI_roundtrip brkExample (by decide) hm rfl rfl
  ⟨⟨by decide, hm, rfl, rfl⟩, h.1, h.2.1, h.2.2.1, h.2.2.2.1, by decide⟩

/-! ## C8: `PHP_c` then `PLP_c` -/

/-- C8: for every CPU state, the byte `PHP_c` pushes (the stack cell
`0x0100 | SP` after the call) has bit 4 and bit 5 set; and `PLP_c` run in any
state `t` that has the stack pointer `PHP_c` left and the pushed byte still in
its cell (whatever its flags and other registers have become) restores `C`,
`Z`, `I`, `D`, `V`, `N` to their values at the time of the `PHP_c`, leaves
`B = 0` and `U = 1`, and restores `SP` to its pre-PHP value. -/
theorem PHP_PLP_roundtrip (s t : State) (hSP : s.cpu.SP < 256)
    (htSP : t.cpu.SP = (PHP_c s).cpu.SP)
    (htmem : t.memory (0x0100 ||| s.cpu.SP) = (PHP_c s).memory (0x0100 ||| s.cpu.SP)) :
    ((PHP_c s).memory (0x0100 ||| s.cpu.SP)).testBit 4 = true ∧
    ((PHP_c s).memory (0x0100 ||| s.cpu.SP)).testBit 5 = true ∧
    (PLP_c t).cpu.P.C = s.cpu.P.C ∧ (PLP_c t).cpu.P.Z = s.cpu.P.Z ∧
    (PLP_c t).cpu.P.I = s.cpu.P.I ∧ (PLP_c t).cpu.P.D = s.cpu.P.D ∧
    (PLP_c t).cpu.P.V = s.cpu.P.V ∧ (PLP_c t).cpu.P.N = s.cpu.P.N ∧
    (PLP_c t).cpu.P.B = false ∧ (PLP_c t).cpu.P.U = true ∧
    (PLP_c t).cpu.SP = s.cpu.SP := by
  have hbits := pack_P_or_0x10_bits s
  have hcell : (PHP_c s).memory (0x0100 ||| s.cpu.SP) = u8 (pack_P s ||| 0x10) := by
    simp only [PHP_c, push_c, store, if_pos]
  have hsp : u8 (t.cpu.SP + 1) = s.cpu.SP := by
    rw [htSP]
    exact u8_u8i_pred_succ s.cpu.SP hSP
  rw [hcell] at htmem ⊢
  have hP : (PLP_c t).cpu.P =
      { N := s.cpu.P.N, V := s.cpu.P.V, U := true, B := false, D := s.cpu.P.D,
        I := s.cpu.P.I, Z := s.cpu.P.Z, C := s.cpu.P.C } := by
    simp only [PLP_c, pull_c, unpack_P_flags, hsp, htmem, hbits]
  have hS : (PLP_c t).cpu.SP = s.cpu.SP := by
    simp only [PLP_c, pull_c, unpack_P, hsp]
  rw [hP]
  exact ⟨hbits.2.2.2.1, hbits.2.2.1, rfl, rfl, rfl, rfl, rfl, rfl, rfl, rfl, hS⟩

/-- Witness for `PHP_PLP_roundtrip`: the test "PHP/PLP" (`SEC`, `SEI`, `PHP`,
`CLC`, `CLI`, `PLP` gives `C = 1`, `I = 1`). -/
theorem PHP_PLP_roundtrip_witness :
    (phpExample.cpu.SP < 256 ∧
      (CLI_c (CLC_c (PHP_c phpExample))).cpu.SP = (PHP_c phpExample).cpu.SP ∧
      (CLI_c (CLC_c (PHP_c phpExample))).memory (0x0100 ||| phpExample.cpu.SP) =
        (PHP_c phpExample).memory (0x0100 ||| phpExample.cpu.SP)) ∧
    (PLP_c (CLI_c (CLC_c (PHP_c phpExample)))).cpu.P.C = true ∧
    (PLP_c (CLI_c (CLC_c (PHP_c phpExample)))).cpu.P.I = true ∧
    (CLI_c (CLC_c (PHP_c phpExample))).cpu.P.C = false ∧
    (CLI_c (CLC_c (PHP_c phpExample))).cpu.P.I = false :=
  have h := PHP_PLP_roundtrip phpExample (CLI_c (CLC_c (PHP_c phpExample))) (by decide) rfl rfl
  ⟨⟨by decide, rfl, rfl⟩, h.2.2.1, h.2.2.2.2.1, rfl, rfl⟩

/-! ## C9: the packed flag layout -/

/-- C9: for every CPU state and every byte `v`, `push_c(v)` followed by `PLP_c`
sets `N` = bit 7 of `v`, `V` = bit 6, `D` = bit 3, `I` = bit 2, `Z` = bit 1,
`C` = bit 0, with `B` forced to 0 and `U` forced to 1 whatever bits 4 and 5 of
`v` are; and `pack_P` of any state is
`N<<7 | V<<6 | 1<<5 | B<<4 | D<<3 | I<<2 | Z<<1 | C`, the byte
`128 N + 64 V + 32 + 16 B + 8 D + 4 I + 2 Z + C`. -/
theorem PLP_layout (s : State) (v : Nat) (hSP : s.cpu.SP < 256) :
    (PLP_c (push_c s v)).cpu.P =
      { N := v.testBit 7, V := v.testBit 6, U := true, B := false, D := v.testBit 3,
        I := v.testBit 2, Z := v.testBit 1, C := v.testBit 0 } ∧
    pack_P s =
      ((s.cpu.P.N.toNat <<< 7) ||| (s.cpu.P.V.toNat <<< 6) ||| (1 <<< 5) |||
        (s.cpu.P.B.toNat <<< 4) ||| (s.cpu.P.D.toNat <<< 3) ||| (s.cpu.P.I.toNat <<< 2) |||
        (s.cpu.P.Z.toNat <<< 1) ||| s.cpu.P.C.toNat) ∧
    pack_P s =
      128 * s.cpu.P.N.toNat + 64 * s.cpu.P.V.toNat + 32 + 16 * s.cpu.P.B.toNat +
        8 * s.cpu.P.D.toNat + 4 * s.cpu.P.I.toNat + 2 * s.cpu.P.Z.toNat + s.cpu.P.C.toNat := by
  have e0 := u8_u8i_pred_succ s.cpu.SP hSP
  refine ⟨?_, ?_, ?_⟩
  · simp only [PLP_c, pull_c, push_c, store, unpack_P_flags, e0, if_pos]
  · rcases s with ⟨⟨A, X, Y, SP, PC, ⟨C, Z, I, D, B, U, V, N⟩⟩, m, o⟩
    simp only [pack_P]
    cases C <;> cases Z <;> cases I <;> cases D <;> cases B <;> cases V <;> cases N <;> decide
  · rcases s with ⟨⟨A, X, Y, SP, PC, ⟨C, Z, I, D, B, U, V, N⟩⟩, m, o⟩
    simp only [pack_P]
    cases C <;> cases Z <;> cases I <;> cases D <;> cases B <;> cases V <;> cases N <;> decide

/-- Witness for `PLP_layout`: the test "PLP restores flags correctly"
(`push(0xC3)`, `PLP` gives `N = V = Z = C = 1`). -/
theorem PLP_layout_witness :
    adcExample.cpu.SP < 256 ∧
    (PLP_c (push_c adcExample 0xC3)).cpu.P =
      { N := true, V := true, U := true, B := false, D := false, I := false, Z := true,
        C := true } :=
  ⟨by decide, (PLP_layout adcExample 0xC3 (by decide)).1⟩

/-! ## C10: the branches -/

/-- C10: for each of the eight branch operations, every CPU state and every
offset byte `o`, with `sg` the offset read as a signed 8-bit value (the
integer in `-128..127` congruent to `o` modulo 256): if the condition of the
operation holds (`BCC`: `C = 0`, `BCS`: `C = 1`, `BEQ`: `Z = 1`, `BNE`: `Z = 0`,
`BMI`: `N = 1`, `BPL`: `N = 0`, `BVC`: `V = 0`, `BVS`: `V = 1`) the result is
the state with `PC' = (PC + sg) mod 65536` and nothing else changed, otherwise
the result is the state itself.  `BVS_c`, whose parameter is an `int8_t`,
receives the converted byte. -/
theorem branch_ops_spec (s : State) (o : Nat) (sg : Int) (ho : o < 256)
    (hlo : -128 ≤ sg) (hhi : sg ≤ 127) (hcong : (sg - (o : Int)) % 256 = 0) :
    BCC_c s o =
      (if s.cpu.P.C = false then s.withPC ((((s.cpu.PC : Nat) : Int) + sg) % 65536).toNat else s) ∧
    BCS_c s o =
      (if s.cpu.P.C = true then s.withPC ((((s.cpu.PC : Nat) : Int) + sg) % 65536).toNat else s) ∧
    BEQ_c s o =
      (if s.cpu.P.Z = true then s.withPC ((((s.cpu.PC : Nat) : Int) + sg) % 65536).toNat else s) ∧
    BNE_c s o =
      (if s.cpu.P.Z = false then s.withPC ((((s.cpu.PC : Nat) : Int) + sg) % 65536).toNat else s) ∧
    BMI_c s o =
      (if s.cpu.P.N = true then s.withPC ((((s.cpu.PC : Nat) : Int) + sg) % 65536).toNat else s) ∧
    BPL_c s o =
      (if s.cpu.P.N = false then s.withPC ((((s.cpu.PC : Nat) : Int) + sg) % 65536).toNat else s) ∧
    BVC_c s o =
      (if s.cpu.P.V = false then s.withPC ((((s.cpu.PC : Nat) : Int) + sg) % 65536).toNat else s) ∧
    BVS_c s (int8_t o) =
      (if s.cpu.P.V = true then s.withPC ((((s.cpu.PC : Nat) : Int) + sg) % 65536).toNat else s) := by
  have hs : int8_t o = sg := by
    rw [int8_t_of_lt o ho]
    split_ifs <;> omega
  have hb : branch s o = s.withPC ((((s.cpu.PC : Nat) : Int) + sg) % 65536).toNat := by
    simp only [branch, State.withPC, u16i, hs]
  simp only [BCC_c, BCS_c, BEQ_c, BNE_c, BMI_c, BPL_c, BVC_c, BVS_c, hb, hs]
  refine ⟨?_, ?_, ?_, ?_, ?_, ?_, ?_, ?_⟩
  · cases s.cpu.P.C <;> rfl
  · cases s.cpu.P.C <;> rfl
  · cases s.cpu.P.Z <;> rfl
  · cases s.cpu.P.Z <;> rfl
  · cases s.cpu.P.N <;> rfl
  · cases s.cpu.P.N <;> rfl
  · cases s.cpu.P.V <;> rfl
  · cases s.cpu.P.V <;> rfl

/-- Witness for `branch_ops_spec`: the test "Branch backward (negative
offset)": `PC = 0x2000`, `Z = 1`, `BEQ 0xF0` (that is `-16`) gives
`PC = 0x1FF0`. -/
theorem branch_ops_spec_witness :
    ((0xF0 : Nat) < 256 ∧ (-128 : Int) ≤ -16 ∧ (-16 : Int) ≤ 127 ∧
      ((-16 : Int) - ((0xF0 : Nat) : Int)) % 256 = 0) ∧
    (BEQ_c branchExample 0xF0).cpu.PC = 0x1FF0 ∧
    (BNE_c branchExample 0xF0).cpu.PC = 0x2000 :=
  have h := branch_ops_spec branchExample 0xF0 (-16) (by decide) (by decide) (by decide)
    (by decide)
  ⟨⟨by decide, by decide, by decide, by decide⟩,
    by rw [h.2.2.1]; decide, by rw [h.2.2.2.1]; decide⟩

/-! ## C11: the compares -/

/-- C11: for every CPU state and every operand byte `M`, `CMP_c`, `CPX_c` and
`CPY_c` (on `A`, `X`, `Y` respectively) set `C = 1` iff register `≥ M` as
unsigned bytes, `Z = 1` iff register `= M`, and `N` = bit 7 of
`(register - M) mod 256` (that is, `N = 1` iff the wrapped difference is at
least 128), and leave `A`, `X`, `Y`, `SP`, `PC`, `V`, `I`, `D`, `B`, `U`, the
memory and the output unchanged. -/
theorem compare_ops_spec (s : State) (M : Nat) (hM : M < 256) :
    ((CMP_c s M).cpu.P.C = true ↔ s.cpu.A ≥ M) ∧
    ((CMP_c s M).cpu.P.Z = true ↔ s.cpu.A = M) ∧
    (CMP_c s M).cpu.P.N = ((((s.cpu.A : Nat) : Int) - (M : Int)) % 256).toNat.testBit 7 ∧
    ((CMP_c s M).cpu.P.N = true ↔ 128 ≤ (s.cpu.A + 256 - M) % 256) ∧
    (CMP_c s M).cpu.A = s.cpu.A ∧
    (CMP_c s M).cpu.X = s.cpu.X ∧
    (CMP_c s M).cpu.Y = s.cpu.Y ∧
    (CMP_c s M).cpu.SP = s.cpu.SP ∧
    (CMP_c s M).cpu.PC = s.cpu.PC ∧
    (CMP_c s M).cpu.P.V = s.cpu.P.V ∧
    (CMP_c s M).cpu.P.I = s.cpu.P.I ∧
    (CMP_c s M).cpu.P.D = s.cpu.P.D ∧
    (CMP_c s M).cpu.P.B = s.cpu.P.B ∧
    (CMP_c s M).cpu.P.U = s.cpu.P.U ∧
    (CMP_c s M).memory = s.memory ∧
    (CMP_c s M).out = s.out ∧
    ((CPX_c s M).cpu.P.C = true ↔ s.cpu.X ≥ M) ∧
    ((CPX_c s M).cpu.P.Z = true ↔ s.cpu.X = M) ∧
    (CPX_c s M).cpu.P.N = ((((s.cpu.X : Nat) : Int) - (M : Int)) % 256).toNat.testBit 7 ∧
    ((CPX_c s M).cpu.P.N = true ↔ 128 ≤ (s.cpu.X + 256 - M) % 256) ∧
    (CPX_c s M).cpu.A = s.cpu.A ∧
    (CPX_c s M).cpu.X = s.cpu.X ∧
    (CPX_c s M).cpu.Y = s.cpu.Y ∧
    (CPX_c s M).cpu.SP = s.cpu.SP ∧
    (CPX_c s M).cpu.PC = s.cpu.PC ∧
    (CPX_c s M).cpu.P.V = s.cpu.P.V ∧
    (CPX_c s M).cpu.P.I = s.cpu.P.I ∧
    (CPX_c s M).cpu.P.D = s.cpu.P.D ∧
    (CPX_c s M).cpu.P.B = s.cpu.P.B ∧
    (CPX_c s M).cpu.P.U = s.cpu.P.U ∧
    (CPX_c s M).memory = s.memory ∧
    (CPX_c s M).out = s.out ∧
    ((CPY_c s M).cpu.P.C = true ↔ s.cpu.Y ≥ M) ∧
    ((CPY_c s M).cpu.P.Z = true ↔ s.cpu.Y = M) ∧
    (CPY_c s M).cpu.P.N = ((((s.cpu.Y : Nat) : Int) - (M : Int)) % 256).toNat.testBit 7 ∧
    ((CPY_c s M).cpu.P.N = true ↔ 128 ≤ (s.cpu.Y + 256 - M) % 256) ∧
    (CPY_c s M).cpu.A = s.cpu.A ∧
    (CPY_c s M).cpu.X = s.cpu.X ∧
    (CPY_c s M).cpu.Y = s.cpu.Y ∧
    (CPY_c s M).cpu.SP = s.cpu.SP ∧
    (CPY_c s M).cpu.PC = s.cpu.PC ∧
    (CPY_c s M).cpu.P.V = s.cpu.P.V ∧
    (CPY_c s M).cpu.P.I = s.cpu.P.I ∧
    (CPY_c s M).cpu.P.D = s.cpu.P.D ∧
    (CPY_c s M).cpu.P.B = s.cpu.P.B ∧
    (CPY_c s M).cpu.P.U = s.cpu.P.U ∧
    (CPY_c s M).memory = s.memory ∧
    (CPY_c s M).out = s.out := by
  have hN : ∀ r : Nat, (decide ((u8i (((r : Nat) : Int) - (M : Int)) &&& 0x80) ≠ 0) = true ↔
      128 ≤ (r + 256 - M) % 256) := by
    intro r
    rw [decide_eq_true_iff, and_0x80_ne_zero, testBit7_eq, decide_eq_true_iff]
    unfold u8i
    omega
  have hN2 : ∀ r : Nat, decide ((u8i (((r : Nat) : Int) - (M : Int)) &&& 0x80) ≠ 0) =
      ((((r : Nat) : Int) - (M : Int)) % 256).toNat.testBit 7 := by
    intro r
    rw [Bool.eq_iff_iff, decide_eq_true_iff, and_0x80_ne_zero]
    rfl
  have hN3 : ∀ r : Nat, (((((r : Nat) : Int) - (M : Int)) % 256).toNat.testBit 7 = true ↔
      128 ≤ (r + 256 - M) % 256) := by
    intro r
    rw [← hN2]
    exact hN r
  simp only [CMP_c, CPX_c, CPY_c, hN2, hN3, decide_eq_true_iff, ge_iff_le, and_self]

/-- Witness for `compare_ops_spec`: the test "CMP negative result"
(`A = 0x10`, `CMP 0x20` gives `C = 0`, `N = 1`, `Z = 0`). -/
theorem compare_ops_spec_witness :
    (0x20 : Nat) < 256 ∧
    ((CMP_c cmpExample 0x20).cpu.P.C = true ↔ (0x10 : Nat) ≥ 0x20) ∧
    ((CMP_c cmpExample 0x20).cpu.P.Z = true ↔ (0x10 : Nat) = 0x20) ∧
    (CMP_c cmpExample 0x20).cpu.P.N = true :=
  have h := compare_ops_spec cmpExample 0x20 (by decide)
  ⟨by decide, h.1, h.2.1, h.2.2.2.1.mpr (by decide)⟩

/-! ## C12: `ADC_c` is commutative -/

/-- C12: for all bytes `m1`, `m2` and every carry-in, `ADC_c(m2)` run from a
state with `A = m1` and `ADC_c(m1)` run from the otherwise identical state
with `A = m2` leave the same state, in particular the same `A` and the same
flags `C`, `V`, `Z` and `N`. -/
theorem ADC_c_comm (s : State) (m1 m2 : Nat) :
    ADC_c (s.withA m1) m2 = ADC_c (s.withA m2) m1 ∧
    (ADC_c (s.withA m1) m2).cpu.A = (ADC_c (s.withA m2) m1).cpu.A ∧
    (ADC_c (s.withA m1) m2).cpu.P.C = (ADC_c (s.withA m2) m1).cpu.P.C ∧
    (ADC_c (s.withA m1) m2).cpu.P.V = (ADC_c (s.withA m2) m1).cpu.P.V ∧
    (ADC_c (s.withA m1) m2).cpu.P.Z = (ADC_c (s.withA m2) m1).cpu.P.Z ∧
    (ADC_c (s.withA m1) m2).cpu.P.N = (ADC_c (s.withA m2) m1).cpu.P.N := by
  have hv : ∀ a b x : Nat,
      decide ((compl (a ^^^ b) &&& (a ^^^ x) &&& 0x80) ≠ 0) =
        decide ((compl (b ^^^ a) &&& (b ^^^ x) &&& 0x80) ≠ 0) := by
    intro a b x
    rw [Bool.eq_iff_iff, decide_eq_true_iff, decide_eq_true_iff]
    simp only [and_0x80_ne_zero, Nat.testBit_and, Nat.testBit_xor, compl_testBit7]
    cases a.testBit 7 <;> cases b.testBit 7 <;> cases x.testBit 7 <;> simp
  have h : ADC_c (s.withA m1) m2 = ADC_c (s.withA m2) m1 := by
    simp only [ADC_c, State.withA, Nat.add_comm m2 m1, hv m2 m1]
  rw [h]
  exact ⟨rfl, rfl, rfl, rfl, rfl, rfl⟩

/-! ## C13: increment and decrement -/

/-- C13: increment and decrement are mutually inverse modulo 256, across the
`0xFF/0x00` wraparound too: for every CPU state, every address and every byte
stored there, `INC_c` then `DEC_c` (and `DEC_c` then `INC_c`) on the same
address restores the memory to exactly its original contents, `INX_c` then
`DEX_c` (and the converse) restores `X`, `INY_c` then `DEY_c` (and the
converse) restores `Y`; and `INX_c` with `X = 0xFF` gives `X = 0x00` with
`Z = 1` and `N = 0`. -/
theorem inc_dec_inverse (s : State) (addr : Nat) (hm : s.memory addr < 256)
    (hX : s.cpu.X < 256) (hY : s.cpu.Y < 256) :
    (DEC_c (INC_c s addr) addr).memory = s.memory ∧
    (INC_c (DEC_c s addr) addr).memory = s.memory ∧
    (DEX_c (INX_c s)).cpu.X = s.cpu.X ∧
    (INX_c (DEX_c s)).cpu.X = s.cpu.X ∧
    (DEY_c (INY_c s)).cpu.Y = s.cpu.Y ∧
    (INY_c (DEY_c s)).cpu.Y = s.cpu.Y ∧
    (s.cpu.X = 0xFF →
      (INX_c s).cpu.X = 0x00 ∧ (INX_c s).cpu.P.Z = true ∧ (INX_c s).cpu.P.N = false) := by
  have e1 : ∀ x : Nat, x < 256 → u8i (((u8i ((x : Int) + 1) : Nat) : Int) - 1) = x := by
    intro x hx; unfold u8i; omega
  have e2 : ∀ x : Nat, x < 256 → u8i (((u8i ((x : Int) - 1) : Nat) : Int) + 1) = x := by
    intro x hx; unfold u8i; omega
  refine ⟨?_, ?_, ?_, ?_, ?_, ?_, ?_⟩
  · funext a
    simp only [DEC_c, INC_c, store, if_pos, e1 _ hm]
    by_cases h : a = addr
    · rw [if_pos h, h]
    · rw [if_neg h, if_neg h]
  · funext a
    simp only [DEC_c, INC_c, store, if_pos, e2 _ hm]
    by_cases h : a = addr
    · rw [if_pos h, h]
    · rw [if_neg h, if_neg h]
  · simp only [DEX_c, INX_c, e1 _ hX]
  · simp only [DEX_c, INX_c, e2 _ hX]
  · simp only [DEY_c, INY_c, e1 _ hY]
  · simp only [DEY_c, INY_c, e2 _ hY]
  · intro h
    simp only [INX_c, h]
    decide

/-- Witness for `inc_dec_inverse`: with the byte `0xFF` at `0x0200`, `X = 0xFF`
and `Y = 0x00` every round trip crosses the wraparound; `INX` gives `X = 0x00`,
`Z = 1`, `N = 0` (test "INX wraparound"). -/
theorem inc_dec_inverse_witness :
    (wrapExample.memory 0x0200 < 256 ∧ wrapExample.cpu.X < 256 ∧ wrapExample.cpu.Y < 256) ∧
    (DEC_c (INC_c wrapExample 0x0200) 0x0200).memory = wrapExample.memory ∧
    (INC_c wrapExample 0x0200).memory 0x0200 = 0x00 ∧
    (DEX_c (INX_c wrapExample)).cpu.X = 0xFF ∧
    (INY_c (DEY_c wrapExample)).cpu.Y = 0x00 ∧
    (INX_c wrapExample).cpu.X = 0x00 ∧ (INX_c wrapExample).cpu.P.Z = true ∧
    (INX_c wrapExample).cpu.P.N = false :=
  have h := inc_dec_inverse wrapExample 0x0200 (by decide) (by decide) (by decide)
  ⟨⟨by decide, by decide, by decide⟩, h.1, by decide, h.2.2.1, h.2.2.2.2.2.1,
    h.2.2.2.2.2.2 rfl⟩

/-! ## C14: `reset_cpu_c` -/

/-- The zero-filling loop has cleared every cell below its bound. -/
theorem zero_fill_lt (n : Nat) (m : Nat → Nat) :
    ∀ a : Nat, a < n → zero_fill n m a = 0 := by
  induction n with
  | zero => intro a ha; omega
  | succ n ih =>
    intro a ha
    show (if a = n then 0 else zero_fill n m a) = 0
    by_cases h : a = n
    · rw [if_pos h]
    · rw [if_neg h]
      exact ih a (by omega)

/-- C14: for every prior CPU state and memory contents, `reset_cpu_c` leaves
`A = X = Y = 0`, `SP = 0xFF`, `PC = 0x0000`, the flags `C`, `Z`, `I`, `D`, `B`,
`V`, `N` all 0 and `U = 1`, and every one of the 65536 memory bytes (every
address `a < 65536`) equal to 0. -/
theorem reset_cpu_c_spec (s : State) (a : Nat) (ha : a < 65536) :
    (reset_cpu_c s).cpu.A = 0 ∧ (reset_cpu_c s).cpu.X = 0 ∧ (reset_cpu_c s).cpu.Y = 0 ∧
    (reset_cpu_c s).cpu.SP = 0xFF ∧ (reset_cpu_c s).cpu.PC = 0x0000 ∧
    (reset_cpu_c s).cpu.P.C = false ∧ (reset_cpu_c s).cpu.P.Z = false ∧
    (reset_cpu_c s).cpu.P.I = false ∧ (reset_cpu_c s).cpu.P.D = false ∧
    (reset_cpu_c s).cpu.P.B = false ∧ (reset_cpu_c s).cpu.P.V = false ∧
    (reset_cpu_c s).cpu.P.N = false ∧ (reset_cpu_c s).cpu.P.U = true ∧
    (reset_cpu_c s).memory a = 0 :=
  ⟨rfl, rfl, rfl, rfl, rfl, rfl, rfl, rfl, rfl, rfl, rfl, rfl, rfl,
    zero_fill_lt 0x10000 s.memory a ha⟩

/-- Witness for `reset_cpu_c_spec`: the cell `0xFFFE`, which holds `0x34`
before the reset, holds 0 after it. -/
theorem reset_cpu_c_spec_witness :
    (0xFFFE : Nat) < 65536 ∧ brkExample.memory 0xFFFE = 0x34 ∧
    (reset_cpu_c brkExample).cpu.SP = 0xFF ∧ (reset_cpu_c brkExample).cpu.P.U = true ∧
    (reset_cpu_c brkExample).cpu.P.C = false ∧
    (reset_cpu_c brkExample).memory 0xFFFE = 0 :=
  have h := reset_cpu_c_spec brkExample 0xFFFE (by decide)
  ⟨by decide, by decide, h.2.2.2.1, h.2.2.2.2.2.2.2.2.2.2.2.2.1, h.2.2.2.2.2.1,
    h.2.2.2.2.2.2.2.2.2.2.2.2.2⟩

/-! ## C15: the accumulator rotates -/

/-- C15: the accumulator rotates do not merge the incoming carry: for every
CPU state `ROL_A_c` produces exactly the state `ASL_A_c` produces and
`ROR_A_c` exactly the state `LSR_A_c` produces, and the result of either
rotate is the same with the carry set or cleared beforehand; `A = 0x7F` with
`C = 1` rotated left gives `A = 0xFE`, `C = 0`, and `A = 0x00` with `C = 1`
rotated right gives `A = 0x00`, `C = 0`. -/
theorem rotate_A_eq_shift :
    (∀ s : State, ROL_A_c s = ASL_A_c s ∧ ROR_A_c s = LSR_A_c s) ∧
    (∀ s : State, ROL_A_c (SEC_c s) = ROL_A_c (CLC_c s) ∧
      ROR_A_c (SEC_c s) = ROR_A_c (CLC_c s)) ∧
    rolExample.cpu.P.C = true ∧
    (ROL_A_c rolExample).cpu.A = 0xFE ∧ (ROL_A_c rolExample).cpu.P.C = false ∧
    rorExample.cpu.P.C = true ∧
    (ROR_A_c rorExample).cpu.A = 0x00 ∧ (ROR_A_c rorExample).cpu.P.C = false := by
  refine ⟨fun s => ⟨rfl, rfl⟩, fun s => ⟨rfl, rfl⟩, ?_, ?_, ?_, ?_, ?_, ?_⟩ <;> decide

/-! ## C16, C17: shifts and the memory-form rotates -/

theorem and_0x01_ne_zero (x : Nat) : (x &&& 0x01 ≠ 0) ↔ x.testBit 0 = true := by
  rw [Nat.and_one_is_mod, Nat.testBit_zero, decide_eq_true_iff]
  omega

theorem shl1_u8 (x : Nat) : u8 ((x <<< 1) &&& U8_MAX) = (2 * x) % 256 := by
  have h : (x <<< 1) &&& U8_MAX = (x <<< 1) % 256 := and_0xFF _
  rw [h, Nat.shiftLeft_eq]
  unfold u8; omega

theorem shr1_u8 (x : Nat) (hx : x < 256) : u8 ((x >>> 1) &&& U8_MAX) = x / 2 := by
  have h : (x >>> 1) &&& U8_MAX = (x >>> 1) % 256 := and_0xFF _
  rw [h, Nat.shiftRight_eq_div_pow]
  unfold u8; omega

theorem decide_and_0x80 (x : Nat) : decide ((x &&& 0x80) ≠ 0) = x.testBit 7 := by
  rw [Bool.eq_iff_iff, decide_eq_true_iff]
  exact and_0x80_ne_zero x

theorem decide_and_0x01 (x : Nat) : decide ((x &&& 0x01) ≠ 0) = x.testBit 0 := by
  rw [Bool.eq_iff_iff, decide_eq_true_iff]
  exact and_0x01_ne_zero x

/-- C16 (the code departs from the claim): `ROL_M_c` is `ASL_M_c`, and
`ROR_M_c` writes the byte and the flags `Z`, `N` that `LSR_M_c` writes, but it
takes the carry from bit 7 of the old byte (mask `0x80`), not from bit 0, the
bit that is lost.  With the byte `0x01` at `0x0200`, `ROR_M_c` leaves `C = 0`
where `LSR_M_c` leaves `C = 1`. -/
theorem ROR_M_c_carry_from_bit7 :
    (∀ (s : State) (addr : Nat), ROL_M_c s addr = ASL_M_c s addr) ∧
    (∀ (s : State) (addr : Nat),
      (ROR_M_c s addr).memory = (LSR_M_c s addr).memory ∧
      (ROR_M_c s addr).cpu.P.Z = (LSR_M_c s addr).cpu.P.Z ∧
      (ROR_M_c s addr).cpu.P.N = (LSR_M_c s addr).cpu.P.N ∧
      (ROR_M_c s addr).cpu.P.C = (s.memory addr).testBit 7 ∧
      (LSR_M_c s addr).cpu.P.C = (s.memory addr).testBit 0) ∧
    rorMemExample.memory 0x0200 = 0x01 ∧
    (ROR_M_c rorMemExample 0x0200).memory 0x0200 = 0x00 ∧
    (ROR_M_c rorMemExample 0x0200).cpu.P.C = false ∧
    (LSR_M_c rorMemExample 0x0200).cpu.P.C = true := by
  refine ⟨fun s addr => rfl, fun s addr => ⟨rfl, rfl, rfl, ?_, ?_⟩, ?_, ?_, ?_, ?_⟩
  · simp only [ROR_M_c, decide_and_0x80]
  · simp only [LSR_M_c, decide_and_0x01]
  · decide
  · decide
  · decide
  · decide

/-- C17: for every CPU state, `ASL_A_c` sets `C` to bit 7 of the old `A` and
`A` to `(2 * A) mod 256`, and `LSR_A_c` sets `C` to bit 0 of the old `A` and `A`
to `floor(A / 2)` (so `N` is 0 afterwards); `ASL_M_c` and `LSR_M_c` do the same
to the byte at the given address and change no other memory byte; in all four
`Z = 1` iff the result is 0 and `N` = bit 7 of the result, and `V`, `I`, `D`,
`B`, `U`, `X`, `Y`, `SP`, `PC` and the output are unchanged (as is the memory
in the accumulator forms and `A` in the memory forms). -/
theorem shift_ops_spec (s : State) (addr : Nat) (hA : s.cpu.A < 256)
    (hm : s.memory addr < 256) :
    (ASL_A_c s).cpu.P.C = s.cpu.A.testBit 7 ∧
    (ASL_A_c s).cpu.A = (2 * s.cpu.A) % 256 ∧
    ((ASL_A_c s).cpu.P.Z = true ↔ (ASL_A_c s).cpu.A = 0) ∧
    (ASL_A_c s).cpu.P.N = (ASL_A_c s).cpu.A.testBit 7 ∧
    (ASL_A_c s).cpu.P.V = s.cpu.P.V ∧
    (ASL_A_c s).cpu.P.I = s.cpu.P.I ∧
    (ASL_A_c s).cpu.P.D = s.cpu.P.D ∧
    (ASL_A_c s).cpu.P.B = s.cpu.P.B ∧
    (ASL_A_c s).cpu.P.U = s.cpu.P.U ∧
    (ASL_A_c s).cpu.X = s.cpu.X ∧
    (ASL_A_c s).cpu.Y = s.cpu.Y ∧
    (ASL_A_c s).cpu.SP = s.cpu.SP ∧
    (ASL_A_c s).cpu.PC = s.cpu.PC ∧
    (ASL_A_c s).memory = s.memory ∧
    (ASL_A_c s).out = s.out ∧
    (LSR_A_c s).cpu.P.C = s.cpu.A.testBit 0 ∧
    (LSR_A_c s).cpu.A = s.cpu.A / 2 ∧
    (LSR_A_c s).cpu.P.N = false ∧
    ((LSR_A_c s).cpu.P.Z = true ↔ (LSR_A_c s).cpu.A = 0) ∧
    (LSR_A_c s).cpu.P.N = (LSR_A_c s).cpu.A.testBit 7 ∧
    (LSR_A_c s).cpu.P.V = s.cpu.P.V ∧
    (LSR_A_c s).cpu.P.I = s.cpu.P.I ∧
    (LSR_A_c s).cpu.P.D = s.cpu.P.D ∧
    (LSR_A_c s).cpu.P.B = s.cpu.P.B ∧
    (LSR_A_c s).cpu.P.U = s.cpu.P.U ∧
    (LSR_A_c s).cpu.X = s.cpu.X ∧
    (LSR_A_c s).cpu.Y = s.cpu.Y ∧
    (LSR_A_c s).cpu.SP = s.cpu.SP ∧
    (LSR_A_c s).cpu.PC = s.cpu.PC ∧
    (LSR_A_c s).memory = s.memory ∧
    (LSR_A_c s).out = s.out ∧
    (ASL_M_c s addr).cpu.P.C = (s.memory addr).testBit 7 ∧
    (ASL_M_c s addr).memory addr = (2 * s.memory addr) % 256 ∧
    (∀ a : Nat, a ≠ addr → (ASL_M_c s addr).memory a = s.memory a) ∧
    ((ASL_M_c s addr).cpu.P.Z = true ↔ (ASL_M_c s addr).memory addr = 0) ∧
    (ASL_M_c s addr).cpu.P.N = ((ASL_M_c s addr).memory addr).testBit 7 ∧
    (ASL_M_c s addr).cpu.P.V = s.cpu.P.V ∧
    (ASL_M_c s addr).cpu.P.I = s.cpu.P.I ∧
    (ASL_M_c s addr).cpu.P.D = s.cpu.P.D ∧
    (ASL_M_c s addr).cpu.P.B = s.cpu.P.B ∧
    (ASL_M_c s addr).cpu.P.U = s.cpu.P.U ∧
    (ASL_M_c s addr).cpu.A = s.cpu.A ∧
    (ASL_M_c s addr).cpu.X = s.cpu.X ∧
    (ASL_M_c s addr).cpu.Y = s.cpu.Y ∧
    (ASL_M_c s addr).cpu.SP = s.cpu.SP ∧
    (ASL_M_c s addr).cpu.PC = s.cpu.PC ∧
    (ASL_M_c s addr).out = s.out ∧
    (LSR_M_c s addr).cpu.P.C = (s.memory addr).testBit 0 ∧
    (LSR_M_c s addr).memory addr = s.memory addr / 2 ∧
    (∀ a : Nat, a ≠ addr → (LSR_M_c s addr).memory a = s.memory a) ∧
    (LSR_M_c s addr).cpu.P.N = false ∧
    ((LSR_M_c s addr).cpu.P.Z = true ↔ (LSR_M_c s addr).memory addr = 0) ∧
    (LSR_M_c s addr).cpu.P.N = ((LSR_M_c s addr).memory addr).testBit 7 ∧
    (LSR_M_c s addr).cpu.P.V = s.cpu.P.V ∧
    (LSR_M_c s addr).cpu.P.I = s.cpu.P.I ∧
    (LSR_M_c s addr).cpu.P.D = s.cpu.P.D ∧
    (LSR_M_c s addr).cpu.P.B = s.cpu.P.B ∧
    (LSR_M_c s addr).cpu.P.U = s.cpu.P.U ∧
    (LSR_M_c s addr).cpu.A = s.cpu.A ∧
    (LSR_M_c s addr).cpu.X = s.cpu.X ∧
    (LSR_M_c s addr).cpu.Y = s.cpu.Y ∧
    (LSR_M_c s addr).cpu.SP = s.cpu.SP ∧
    (LSR_M_c s addr).cpu.PC = s.cpu.PC ∧
    (LSR_M_c s addr).out = s.out := by
  have hA2 : s.cpu.A / 2 < 128 := by omega
  have hm2 : s.memory addr / 2 < 128 := by omega
  have t1 : (s.cpu.A / 2).testBit 7 = false := by
    rw [testBit7_eq, decide_eq_false_iff_not]; omega
  have t2 : (s.memory addr / 2).testBit 7 = false := by
    rw [testBit7_eq, decide_eq_false_iff_not]; omega
  simp only [ASL_A_c, LSR_A_c, ASL_M_c, LSR_M_c, shl1_u8, shr1_u8 _ hA, shr1_u8 _ hm,
    decide_and_0x80, decide_and_0x01, store, if_pos, decide_eq_true_iff, t1, t2, and_self,
    true_and, and_true]
  refine ⟨?_, ?_⟩ <;> intro a ha <;> rw [if_neg ha]

/-- Witness for `shift_ops_spec`: the test "ASL A" (`A = 0x40` gives
`A = 0x80`, `C = 0`, `N = 1`), and the byte `0x81` at `0x0200` shifted right
(`0x40`, `C = 1`). -/
theorem shift_ops_spec_witness :
    (shiftExample.cpu.A < 256 ∧ shiftExample.memory 0x0200 < 256) ∧
    (ASL_A_c shiftExample).cpu.P.C = false ∧
    (ASL_A_c shiftExample).cpu.A = 0x80 ∧
    (LSR_M_c shiftExample 0x0200).memory 0x0200 = 0x40 ∧
    (LSR_M_c shiftExample 0x0200).cpu.P.C = true :=
  have h := shift_ops_spec shiftExample 0x0200 (by decide) (by decide)
  ⟨⟨by decide, by decide⟩, h.1, h.2.1, by decide, by decide⟩

/-! ## C18: the halt opcode -/

/-- C18: for every CPU state and memory with the byte at `PC` equal to `0x00`,
`run_cpu` terminates after exactly one `cpu_step` (one iteration of its loop
is enough, whatever the fuel), and the final state differs from the initial
one only in `PC = (PC + 1) mod 65536`: nothing is pushed, `SP`, `I` and all
other flags, the registers, the memory and the output are unchanged, and `PC`
is not loaded from the vector `0xFFFE/0xFFFF`. -/
theorem run_cpu_halt (s : State) (fuel : Nat) (h : s.memory s.cpu.PC = 0x00) :
    run_cpu 1 s = some (cpu_step s) ∧
    run_cpu (fuel + 1) s = some (s.withPC ((s.cpu.PC + 1) % 65536)) ∧
    cpu_step s = s.withPC ((s.cpu.PC + 1) % 65536) ∧
    (cpu_step s).cpu.PC = (s.cpu.PC + 1) % 65536 ∧
    (cpu_step s).cpu.SP = s.cpu.SP ∧ (cpu_step s).cpu.P = s.cpu.P ∧
    (cpu_step s).cpu.A = s.cpu.A ∧ (cpu_step s).cpu.X = s.cpu.X ∧
    (cpu_step s).cpu.Y = s.cpu.Y ∧ (cpu_step s).memory = s.memory ∧
    (cpu_step s).out = s.out := by
  have hstep : cpu_step s = s.withPC ((s.cpu.PC + 1) % 65536) := by
    simp only [cpu_step, fetch, h, State.withPC, u16]
    norm_num
  have hrun : ∀ n : Nat, run_cpu (n + 1) s = some (cpu_step s) := by
    intro n
    simp only [run_cpu, h, if_pos]
  refine ⟨hrun 0, ?_, hstep, ?_⟩
  · rw [hrun fuel, hstep]
  · rw [hstep]
    exact ⟨rfl, rfl, rfl, rfl, rfl, rfl, rfl, rfl⟩

/-- Witness for `run_cpu_halt`: at `PC = 0x8000` the loop stops with
`PC = 0x8001`, although the vector `0xFFFE/0xFFFF` holds `0x1234`; `SP` stays
`0xFF` and `I` stays 0. -/
theorem run_cpu_halt_witness :
    haltExample.memory haltExample.cpu.PC = 0x00 ∧
    run_cpu 1 haltExample = some (haltExample.withPC 0x8001) ∧
    (cpu_step haltExample).cpu.SP = 0xFF ∧
    (cpu_step haltExample).cpu.P.I = false ∧
    haltExample.memory 0xFFFE + 256 * haltExample.memory 0xFFFF = 0x1234 :=
  have h := run_cpu_halt haltExample 0 (by decide)
  ⟨by decide, h.2.1, h.2.2.2.2.1, by decide, by decide⟩

/-! ## C19: branches in `cpu_step` -/

/-- C19: in the fetch-decode step the branch offset is applied after `PC` has
passed the operand byte: for every CPU state and memory with a branch opcode
at `p = PC` (`0x90` `BCC` or `0xD0` `BNE`) and operand byte `o` at `p + 1`
(address `(p + 1) mod 65536`), with `sg` the byte `o` read as a signed 8-bit
value, one `cpu_step` leaves `PC = (p + 2 + sg) mod 65536` when the branch is
taken (`C = 0` for `BCC`, `Z = 0` for `BNE`) and `PC = (p + 2) mod 65536` when
it is not, and changes nothing else. -/
theorem cpu_step_branch (s : State) (sg : Int)
    (ho : s.memory ((s.cpu.PC + 1) % 65536) < 256)
    (hlo : -128 ≤ sg) (hhi : sg ≤ 127)
    (hcong : (sg - (s.memory ((s.cpu.PC + 1) % 65536) : Int)) % 256 = 0) :
    (s.memory s.cpu.PC = 0x90 →
      cpu_step s =
        (if s.cpu.P.C = false then
          s.withPC ((((s.cpu.PC : Nat) : Int) + 2 + sg) % 65536).toNat
        else s.withPC ((s.cpu.PC + 2) % 65536))) ∧
    (s.memory s.cpu.PC = 0xD0 →
      cpu_step s =
        (if s.cpu.P.Z = false then
          s.withPC ((((s.cpu.PC : Nat) : Int) + 2 + sg) % 65536).toNat
        else s.withPC ((s.cpu.PC + 2) % 65536))) := by
  have hs : int8_t (s.memory ((s.cpu.PC + 1) % 65536)) = sg := by
    rw [int8_t_of_lt _ ho]
    split_ifs <;> omega
  have hb : u8i sg = s.memory ((s.cpu.PC + 1) % 65536) := by
    unfold u8i; omega
  have hpc2 : u16 (u16 (s.cpu.PC + 1) + 1) = (s.cpu.PC + 2) % 65536 := by
    unfold u16; omega
  have hpc : u16i ((((s.cpu.PC + 2) % 65536 : Nat) : Int) + sg) =
      ((((s.cpu.PC : Nat) : Int) + 2 + sg) % 65536).toNat := by
    unfold u16i; omega
  refine ⟨?_, ?_⟩
  · intro hop
    simp only [cpu_step, fetch, hop, BCC_c, branch]
    norm_num
    simp only [u16] at hpc2 ⊢
    simp only [hs, hb, hpc2, hpc, State.withPC]
  · intro hop
    simp only [cpu_step, fetch, hop, BNE_c, branch]
    norm_num
    simp only [u16] at hpc2 ⊢
    simp only [hs, hb, hpc2, hpc, State.withPC]

/-- Witness for `cpu_step_branch`: `BCC 0xF0` at `0x2000` with the carry clear
gives `PC = 0x2000 + 2 - 16 = 0x1FF2`; `BNE 0x10` at `0xFFFF` with `Z = 1`, not
taken, gives `PC = 0x0001`. -/
theorem cpu_step_branch_witness :
    (bccExample.memory ((bccExample.cpu.PC + 1) % 65536) < 256 ∧
      (-128 : Int) ≤ -16 ∧ (-16 : Int) ≤ 127 ∧
      ((-16 : Int) - (bccExample.memory ((bccExample.cpu.PC + 1) % 65536) : Int)) % 256 = 0 ∧
      bccExample.memory bccExample.cpu.PC = 0x90) ∧
    (cpu_step bccExample).cpu.PC = 0x1FF2 ∧
    (bneExample.memory ((bneExample.cpu.PC + 1) % 65536) < 256 ∧
      (-128 : Int) ≤ 16 ∧ (16 : Int) ≤ 127 ∧
      ((16 : Int) - (bneExample.memory ((bneExample.cpu.PC + 1) % 65536) : Int)) % 256 = 0 ∧
      bneExample.memory bneExample.cpu.PC = 0xD0) ∧
    (cpu_step bneExample).cpu.PC = 0x0001 :=
  have h1 := (cpu_step_branch bccExample (-16) (by decide) (by decide) (by decide)
    (by decide)).1 (by decide)
  have h2 := (cpu_step_branch bneExample 16 (by decide) (by decide) (by decide)
    (by decide)).2 (by decide)
  ⟨⟨by decide, by decide, by decide, by decide, by decide⟩, by rw [h1]; decide,
    ⟨by decide, by decide, by decide, by decide, by decide⟩, by rw [h2]; decide⟩

/-! ## C20: the return address `JSR_c` pushes -/

/-- C20, as stated, fails: with `SP = 0xFF` and `PC = 0x1234`, after `JSR_c`
the byte at `0x01FF` is `0x12`, the high byte of `0x1233`, and the byte at
`0x01FE` is `0x33`, its low byte; read the way the claim reads them,
`(memory[0x01FE] << 8) | memory[0x01FF]` is `0x3312`, not `0x1233`. -/
theorem JSR_c_layout_counterexample :
    jsrLayoutExample.cpu.SP = 0xFF ∧ jsrLayoutExample.cpu.PC = 0x1234 ∧
    ¬ ((JSR_c jsrLayoutExample 0x4000).memory 0x01FF = 0x1233 % 256 ∧
        (JSR_c jsrLayoutExample 0x4000).memory 0x01FE = 0x1233 / 256 ∧
        (((JSR_c jsrLayoutExample 0x4000).memory 0x01FE <<< 8) |||
          (JSR_c jsrLayoutExample 0x4000).memory 0x01FF) = 0x1233) ∧
    (JSR_c jsrLayoutExample 0x4000).memory 0x01FF = 0x12 ∧
    (JSR_c jsrLayoutExample 0x4000).memory 0x01FE = 0x33 ∧
    (((JSR_c jsrLayoutExample 0x4000).memory 0x01FE <<< 8) |||
      (JSR_c jsrLayoutExample 0x4000).memory 0x01FF) = 0x3312 := by
  refine ⟨by decide, by decide, by decide, by decide, by decide, by decide⟩

/-- C20, amended: for a CPU with `SP = 0xFF` and every `PC` and target
address, after `JSR_c` the byte at `0x01FF` is the high byte and the byte at
`0x01FE` is the low byte of `(PC - 1) mod 65536`, so that
`(memory[0x01FF] << 8) | memory[0x01FE]` equals `(PC - 1) mod 65536`; the stack
pointer is left at `0xFD` and `PC` at the target. -/
theorem JSR_c_layout (s : State) (addr : Nat) (hSP : s.cpu.SP = 0xFF) :
    (JSR_c s addr).memory 0x01FF = ((((s.cpu.PC : Nat) : Int) - 1) % 65536).toNat / 256 ∧
    (JSR_c s addr).memory 0x01FE = ((((s.cpu.PC : Nat) : Int) - 1) % 65536).toNat % 256 ∧
    (((JSR_c s addr).memory 0x01FF <<< 8) ||| (JSR_c s addr).memory 0x01FE) =
      ((((s.cpu.PC : Nat) : Int) - 1) % 65536).toNat ∧
    (JSR_c s addr).cpu.SP = 0xFD ∧ (JSR_c s addr).cpu.PC = addr := by
  have hr : u16i ((s.cpu.PC : Int) - 1) < 65536 := by unfold u16i; omega
  have a1 : (0x0100 ||| 0xFF) = 0x01FF := by decide
  have a2 : (0x0100 ||| 0xFE) = 0x01FE := by decide
  have sp1 : u8i (((0xFF : Nat) : Int) - 1) = 0xFE := by decide
  have sp2 : u8i (((0xFE : Nat) : Int) - 1) = 0xFD := by decide
  have n1 : (0x01FF : Nat) ≠ 0x01FE := by decide
  have h1 : (JSR_c s addr).memory 0x01FF = u16i ((s.cpu.PC : Int) - 1) / 256 := by
    simp only [JSR_c, push_c, store, hSP, sp1, a1, a2, and_0xFF, shr8, if_neg n1, if_pos]
    omega
  have h2 : (JSR_c s addr).memory 0x01FE = u16i ((s.cpu.PC : Int) - 1) % 256 := by
    simp only [JSR_c, push_c, store, hSP, sp1, a1, a2, and_0xFF, shr8, if_pos]
  have h3 : (JSR_c s addr).cpu.SP = 0xFD := by
    simp only [JSR_c, push_c, hSP, sp1, sp2]
  rw [h1, h2]
  refine ⟨rfl, rfl, ?_, h3, rfl⟩
  rw [shl8_or _ _ (Nat.mod_lt _ (by norm_num))]
  unfold u16i at hr ⊢
  omega

/-- Witness for `JSR_c_layout`: `PC = 0x1234` gives the bytes `0x12` at
`0x01FF` and `0x33` at `0x01FE`, the word `0x1233`. -/
theorem JSR_c_layout_witness :
    jsrLayoutExample.cpu.SP = 0xFF ∧
    (((JSR_c jsrLayoutExample 0x4000).memory 0x01FF <<< 8) |||
      (JSR_c jsrLayoutExample 0x4000).memory 0x01FE) = 0x1233 :=
  ⟨by decide, (JSR_c_layout jsrLayoutExample 0x4000 (by decide)).2.2.1⟩

/-! ## C21: the frame `RTI_c` reads -/

/-- C21, as stated, fails: from the reset state, after `push_c(0x00)`,
`push_c(0x78)`, `push_c(0x56)` in that order, `RTI_c` pulls `0x56` as the flags
byte, `0x78` as the low byte and `0x00` as the high byte, so it sets
`PC = 0x0078`, not `(0x56 << 8) | 0x78 = 0x5678`. -/
theorem RTI_c_flags_first_counterexample :
    ¬ ((RTI_c (push_c (push_c (push_c (reset_cpu_c stackExample) 0x00) 0x78) 0x56)).cpu.PC =
        ((0x56 <<< 8) ||| 0x78)) ∧
    (RTI_c (push_c (push_c (push_c (reset_cpu_c stackExample) 0x00) 0x78) 0x56)).cpu.PC =
      0x0078 := by
  refine ⟨by decide, by decide⟩

/-- C21, amended: `RTI_c` restores `PC` exactly from a frame pushed as high
byte first, then low byte, then the flags byte (the order in which `BRK_c`
pushes it): from every state (the reset state included), for all bytes `hi`,
`lo`, `p`, after `push_c(hi)`, `push_c(lo)`, `push_c(p)` in that order, `RTI_c`
sets `PC` to `(hi << 8) | lo` with no `+1` adjustment, takes the flags from `p`
(with `B = 0`, `U = 1`) and leaves `SP` at its value before the pushes. -/
theorem RTI_c_frame (s : State) (hi lo p : Nat) (hSP : s.cpu.SP < 256) (hhi : hi < 256)
    (hlo : lo < 256) :
    (RTI_c (push_c (push_c (push_c s hi) lo) p)).cpu.PC = ((hi <<< 8) ||| lo) ∧
    (RTI_c (push_c (push_c (push_c s hi) lo) p)).cpu.PC = 256 * hi + lo ∧
    (RTI_c (push_c (push_c (push_c s hi) lo) p)).cpu.P =
      { N := p.testBit 7, V := p.testBit 6, U := true, B := false, D := p.testBit 3,
        I := p.testBit 2, Z := p.testBit 1, C := p.testBit 0 } ∧
    (RTI_c (push_c (push_c (push_c s hi) lo) p)).cpu.SP = s.cpu.SP := by
  have l0 := u8i_pred_lt s.cpu.SP
  have l1 := u8i_pred_lt (u8i ((s.cpu.SP : Int) - 1))
  have e0 := u8_u8i_pred_succ s.cpu.SP hSP
  have e1 := u8_u8i_pred_succ (u8i ((s.cpu.SP : Int) - 1)) l0
  have e2 := u8_u8i_pred_succ (u8i ((u8i ((s.cpu.SP : Int) - 1) : Int) - 1)) l1
  have n0 := stack_addr_ne s.cpu.SP hSP
  have n1 := stack_addr_ne (u8i ((s.cpu.SP : Int) - 1)) l0
  have n2 := stack_addr_ne2 s.cpu.SP hSP
  have hw : u16 ((u16 hi <<< 8) ||| lo) = ((hi <<< 8) ||| lo) := by
    have h1 : u16 hi = hi := Nat.mod_eq_of_lt (by omega)
    rw [h1, shl8_or _ _ hlo]
    exact Nat.mod_eq_of_lt (by omega)
  have hPC : (RTI_c (push_c (push_c (push_c s hi) lo) p)).cpu.PC = ((hi <<< 8) ||| lo) := by
    simp only [RTI_c, unpack_P, pull_c, push_c, store, e0, e1, e2, if_pos, if_neg n0,
      if_neg n1, if_neg n2, hw]
  refine ⟨hPC, ?_, ?_, ?_⟩
  · rw [hPC, shl8_or _ _ hlo]; omega
  · simp only [RTI_c, pull_c, push_c, store, e0, e1, e2, if_pos, unpack_P_flags]
  · simp only [RTI_c, unpack_P, pull_c, push_c, store, e0, e1, e2]

/-- Witness for `RTI_c_frame`: from the reset state, `push_c(0x56)`,
`push_c(0x78)`, `push_c(0x00)` and then `RTI_c` give `PC = 0x5678`, all flags
clear except `U`, and `SP = 0xFF`. -/
theorem RTI_c_frame_witness :
    ((reset_cpu_c stackExample).cpu.SP < 256 ∧ (0x56 : Nat) < 256 ∧ (0x78 : Nat) < 256) ∧
    (RTI_c (push_c (push_c (push_c (reset_cpu_c stackExample) 0x56) 0x78) 0x00)).cpu.PC =
      0x5678 ∧
    (RTI_c (push_c (push_c (push_c (reset_cpu_c stackExample) 0x56) 0x78) 0x00)).cpu.SP =
      0xFF :=
  have h := RTI_c_frame (reset_cpu_c stackExample) 0x56 0x78 0x00 (by decide) (by decide)
    (by decide)
  ⟨⟨by decide, by decide, by decide⟩, h.1, h.2.2.2⟩

/-! ## C22: the flags `U` and `B` -/

/-- A conditional whose two branches agree on a value has that value. -/
theorem ite_both {α : Type} (c : Prop) [Decidable c] (a b x : α) (ha : a = x) (hb : b = x) :
    (if c then a else b) = x := by
  split_ifs <;> assumption

theorem BCC_c_P_U_B (s : State) (o : Nat) :
    (BCC_c s o).cpu.P.U = s.cpu.P.U ∧ (BCC_c s o).cpu.P.B = s.cpu.P.B := by
  unfold BCC_c; split_ifs <;> exact ⟨rfl, rfl⟩

theorem BNE_c_P_U_B (s : State) (o : Nat) :
    (BNE_c s o).cpu.P.U = s.cpu.P.U ∧ (BNE_c s o).cpu.P.B = s.cpu.P.B := by
  unfold BNE_c; split_ifs <;> exact ⟨rfl, rfl⟩

theorem STA_os_P_U_B (s : State) (a : Nat) :
    (STA_os s a).cpu.P.U = s.cpu.P.U ∧ (STA_os s a).cpu.P.B = s.cpu.P.B := by
  unfold STA_os; split_ifs <;> exact ⟨rfl, rfl⟩

/-- One `cpu_step` does not write the flags `U` and `B`: none of the fourteen
dispatched cases, nor the default case, does. -/
theorem cpu_step_U_B (s : State) :
    (cpu_step s).cpu.P.U = s.cpu.P.U ∧ (cpu_step s).cpu.P.B = s.cpu.P.B := by
  unfold cpu_step
  simp only [apply_ite State.cpu, apply_ite cpu6502.P, apply_ite Status.U,
    apply_ite Status.B]
  refine ⟨?_, ?_⟩
  · exact ite_both _ _ _ _ rfl
      (ite_both _ _ _ _ (STA_os_P_U_B _ _).1
      (ite_both _ _ _ _ rfl
      (ite_both _ _ _ _ rfl
      (ite_both _ _ _ _ rfl
      (ite_both _ _ _ _ (BCC_c_P_U_B _ _).1
      (ite_both _ _ _ _ rfl
      (ite_both _ _ _ _ rfl
      (ite_both _ _ _ _ rfl
      (ite_both _ _ _ _ rfl
      (ite_both _ _ _ _ (BNE_c_P_U_B _ _).1
      (ite_both _ _ _ _ rfl
      (ite_both _ _ _ _ rfl
      (ite_both _ _ _ _ rfl
      (rfl))))))))))))))
  · exact ite_both _ _ _ _ rfl
      (ite_both _ _ _ _ (STA_os_P_U_B _ _).2
      (ite_both _ _ _ _ rfl
      (ite_both _ _ _ _ rfl
      (ite_both _ _ _ _ rfl
      (ite_both _ _ _ _ (BCC_c_P_U_B _ _).2
      (ite_both _ _ _ _ rfl
      (ite_both _ _ _ _ rfl
      (ite_both _ _ _ _ rfl
      (ite_both _ _ _ _ rfl
      (ite_both _ _ _ _ (BNE_c_P_U_B _ _).2
      (ite_both _ _ _ _ rfl
      (ite_both _ _ _ _ rfl
      (ite_both _ _ _ _ rfl
      (rfl))))))))))))))

/-- One `cpu_step` leaves `U = 1`, `B = 0` as they are. -/
theorem cpu_step_preserves_U_B (s : State)
    (h : s.cpu.P.U = true ∧ s.cpu.P.B = false) :
    (cpu_step s).cpu.P.U = true ∧ (cpu_step s).cpu.P.B = false := by
  rw [(cpu_step_U_B s).1, (cpu_step_U_B s).2]
  exact h

/-- No call changes `U = 1`, `B = 0`. -/
theorem Op.run_preserves_U_B (op : Op) (s : State)
    (h : s.cpu.P.U = true ∧ s.cpu.P.B = false) :
    (op.run s).cpu.P.U = true ∧ (op.run s).cpu.P.B = false := by
  cases op with
  | step => exact cpu_step_preserves_U_B s h
  | reset_cpu => exact ⟨rfl, rfl⟩
  | unpack v => exact ⟨rfl, rfl⟩
  | PLP => exact ⟨rfl, rfl⟩
  | RTI => exact ⟨rfl, rfl⟩
  | BCC o => simp only [Op.run, BCC_c]; split_ifs <;> exact h
  | BCS o => simp only [Op.run, BCS_c]; split_ifs <;> exact h
  | BEQ o => simp only [Op.run, BEQ_c]; split_ifs <;> exact h
  | BMI o => simp only [Op.run, BMI_c]; split_ifs <;> exact h
  | BNE o => simp only [Op.run, BNE_c]; split_ifs <;> exact h
  | BPL o => simp only [Op.run, BPL_c]; split_ifs <;> exact h
  | BVC o => simp only [Op.run, BVC_c]; split_ifs <;> exact h
  | BVS o => simp only [Op.run, BVS_c]; split_ifs <;> exact h
  | STA_program a => simp only [Op.run, STA_os]; split_ifs <;> exact h
  | _ => exact h

/-- A sequence of calls leaves `U = 1`, `B = 0` as they are. -/
theorem run_ops_preserves_U_B (ops : List Op) :
    ∀ s : State, s.cpu.P.U = true ∧ s.cpu.P.B = false →
      (run_ops s ops).cpu.P.U = true ∧ (run_ops s ops).cpu.P.B = false := by
  induction ops with
  | nil => intro s h; exact h
  | cons op rest ih =>
    intro s h
    show (run_ops (op.run s) rest).cpu.P.U = true ∧ (run_ops (op.run s) rest).cpu.P.B = false
    exact ih (op.run s) (Op.run_preserves_U_B op s h)

/-- C22: each operation of the semantics library (with arbitrary arguments)
and each `cpu_step` preserves the predicate `U = 1` and `B = 0`, and so in
every state reached from `reset_cpu_c` by a finite sequence of such calls the
flag `U` is 1 and the flag `B` is 0: the `B` bit is never set in the register
file. -/
theorem U_B_invariant :
    (∀ (op : Op) (s : State), s.cpu.P.U = true ∧ s.cpu.P.B = false →
      (op.run s).cpu.P.U = true ∧ (op.run s).cpu.P.B = false) ∧
    (∀ (s0 : State) (ops : List Op),
      (run_ops (reset_cpu_c s0) ops).cpu.P.U = true ∧
      (run_ops (reset_cpu_c s0) ops).cpu.P.B = false) :=
  ⟨fun op s h => Op.run_preserves_U_B op s h,
    fun s0 ops => run_ops_preserves_U_B ops (reset_cpu_c s0) ⟨rfl, rfl⟩⟩

/-- Witness for `U_B_invariant`: after reset, `LDA 0x80`, `PHP`, `BRK`, a
`cpu_step`, `PLP` and `RTI`, the flags are still `U = 1`, `B = 0`. -/
theorem U_B_invariant_witness :
    (run_ops (reset_cpu_c brkExample)
      [Op.LDA 0x80, Op.PHP, Op.BRK, Op.step, Op.PLP, Op.RTI]).cpu.P.U = true ∧
    (run_ops (reset_cpu_c brkExample)
      [Op.LDA 0x80, Op.PHP, Op.BRK, Op.step, Op.PLP, Op.RTI]).cpu.P.B = false :=
  U_B_invariant.2 brkExample [Op.LDA 0x80, Op.PHP, Op.BRK, Op.step, Op.PLP, Op.RTI]

/-! ## C23: compare and subtract -/

theorem and_0x100_ne_zero (x : Nat) : (x &&& 0x100 ≠ 0) ↔ x / 256 % 2 = 1 := by
  have h := Nat.and_two_pow x 8
  have e : (2 : Nat) ^ 8 = 0x100 := by norm_num
  rw [e] at h
  rw [h, Nat.testBit_to_div_mod]
  by_cases hx : x / 2 ^ 8 % 2 = 1
  · simp only [hx, decide_True, Bool.toNat_true]; norm_num at hx ⊢; exact hx
  · simp only [hx, decide_False, Bool.toNat_false]; norm_num at hx ⊢; exact hx

/-- C23: for every CPU state and every operand byte `M`, the `C`, `Z` and `N`
flags left by `CMP_c(M)` equal the `C`, `Z` and `N` flags left by `SBC_c(M)`
run from the same state with the carry flag first set to 1 (`SEC_c`), while
`CMP_c` leaves `A` unchanged. -/
theorem CMP_c_eq_SBC_c_flags (s : State) (M : Nat) (hA : s.cpu.A < 256) (hM : M < 256) :
    (CMP_c s M).cpu.P.C = (SBC_c (SEC_c s) M).cpu.P.C ∧
    (CMP_c s M).cpu.P.Z = (SBC_c (SEC_c s) M).cpu.P.Z ∧
    (CMP_c s M).cpu.P.N = (SBC_c (SEC_c s) M).cpu.P.N ∧
    (CMP_c s M).cpu.A = s.cpu.A := by
  have hv : u16 (u16 M ^^^ 0x00FF) = 255 - M := by
    have h1 : u16 M = M := Nat.mod_eq_of_lt (by omega)
    rw [h1, xor_0xFF M hM]
    exact Nat.mod_eq_of_lt (by omega)
  have hsum : u16 (s.cpu.A + (255 - M) + 1) = s.cpu.A + (255 - M) + 1 :=
    Nat.mod_eq_of_lt (by omega)
  have hdiff : u8i ((s.cpu.A : Int) - (M : Int)) = u8 (s.cpu.A + (255 - M) + 1) := by
    unfold u8i u8; omega
  simp only [CMP_c, SBC_c, SEC_c, hv, if_true, hsum, hdiff]
  refine ⟨?_, ?_, trivial, trivial⟩
  · rw [Bool.eq_iff_iff, decide_eq_true_iff, decide_eq_true_iff, and_0x100_ne_zero]
    omega
  · rw [Bool.eq_iff_iff, decide_eq_true_iff, decide_eq_true_iff]
    unfold u8; omega

/-- Witness for `CMP_c_eq_SBC_c_flags`: `A = 0x10`, `M = 0x20` (test "CMP
negative result"): both leave `C = 0`, `Z = 0`, `N = 1`, and `SBC_c` changes
`A` to `0xF0` where `CMP_c` keeps `0x10`. -/
theorem CMP_c_eq_SBC_c_flags_witness :
    (cmpExample.cpu.A < 256 ∧ (0x20 : Nat) < 256) ∧
    ((CMP_c cmpExample 0x20).cpu.P.C = (SBC_c (SEC_c cmpExample) 0x20).cpu.P.C ∧
      (CMP_c cmpExample 0x20).cpu.P.Z = (SBC_c (SEC_c cmpExample) 0x20).cpu.P.Z ∧
      (CMP_c cmpExample 0x20).cpu.P.N = (SBC_c (SEC_c cmpExample) 0x20).cpu.P.N ∧
      (CMP_c cmpExample 0x20).cpu.A = 0x10) ∧
    (CMP_c cmpExample 0x20).cpu.P.N = true ∧
    (SBC_c (SEC_c cmpExample) 0x20).cpu.A = 0xF0 :=
  ⟨⟨by decide, by decide⟩, CMP_c_eq_SBC_c_flags cmpExample 0x20 (by decide) (by decide),
    by decide, by decide⟩

/-! ## C24: `PLA_c` -/

/-- C24: for every CPU state and memory, `PLA_c` returns the byte at address
`0x0100 | ((SP + 1) mod 256)` and changes only `SP` (to `(SP + 1) mod 256`): it
does not write the pulled byte to `A` and leaves `A`, `X`, `Y`, `PC`, every
flag (`Z` and `N` included), the memory and the output unchanged.  In the test
"Stack PHA/PLA" (`LDA 0xAB`, `PHA`, `LDA 0x00`, `LDA(PLA())`) the accumulator
is still `0x00` after the `PLA_c` and becomes `0xAB` only through the `LDA_c`
of the caller. -/
theorem PLA_c_spec :
    (∀ s : State,
      (PLA_c s).2 = s.memory (0x0100 ||| ((s.cpu.SP + 1) % 256)) ∧
      (PLA_c s).1.cpu.SP = (s.cpu.SP + 1) % 256 ∧
      (PLA_c s).1.cpu.A = s.cpu.A ∧ (PLA_c s).1.cpu.X = s.cpu.X ∧
      (PLA_c s).1.cpu.Y = s.cpu.Y ∧ (PLA_c s).1.cpu.PC = s.cpu.PC ∧
      (PLA_c s).1.cpu.P = s.cpu.P ∧ (PLA_c s).1.memory = s.memory ∧
      (PLA_c s).1.out = s.out) ∧
    (PLA_c (LDA_c (PHA_c (LDA_c adcExample 0xAB)) 0x00)).2 = 0xAB ∧
    (PLA_c (LDA_c (PHA_c (LDA_c adcExample 0xAB)) 0x00)).1.cpu.A = 0x00 ∧
    (PLA_c (LDA_c (PHA_c (LDA_c adcExample 0xAB)) 0x00)).1.cpu.P.Z = true ∧
    (LDA_c (PLA_c (LDA_c (PHA_c (LDA_c adcExample 0xAB)) 0x00)).1
      (PLA_c (LDA_c (PHA_c (LDA_c adcExample 0xAB)) 0x00)).2).cpu.A = 0xAB ∧
    (LDA_c (PLA_c (LDA_c (PHA_c (LDA_c adcExample 0xAB)) 0x00)).1
      (PLA_c (LDA_c (PHA_c (LDA_c adcExample 0xAB)) 0x00)).2).cpu.SP = 0xFF := by
  refine ⟨fun s => ⟨rfl, rfl, rfl, rfl, rfl, rfl, rfl, rfl, rfl⟩, ?_, ?_, ?_, ?_, ?_⟩ <;> decide

end Emu6502
